import Mathlib

/-!
Verification development for the weewx-klimalogg driver (src/bin/user/kl.py).

Shallow embedding conventions:
* Byte buffers received from / sent to the console are `List Nat` (frames) or
  `Nat → Nat` (the outgoing config buffer built by `testConfigChanged`, which
  the source builds by in-place writes).
* Temperatures are represented in tenths of a degree Celsius as `Int`
  (`SensorLimits.temperature_NP = 81.1` becomes `811`); the source stores
  one-decimal fixed-point values in Python floats, and all arithmetic the
  claims touch is exact at this resolution.  Humidities are `Int`.
* Unix timestamps are `Int`.  The source converts decoded `datetime` values
  with `time.mktime`, which is timezone dependent; a history-frame position
  is therefore embedded as its already-converted timestamp
  (`tstr_to_ts(str(Pos<x>DT))`), `none` standing for Python `None`
  (`mktime` overflow).  Python 2 orders `None` below every integer and
  `None == int` is false; the embedding reproduces those comparisons
  explicitly.
* Python 2 `/` and `%` on ints are floor division and nonnegative remainder,
  embedded as `Int.fdiv` / `Int.emod`.
* USB transfers, logging and sleep-interval bookkeeping have no effect on any
  value the claims mention and are not part of the embedded state.
-/

namespace KL

/-- `KlimaLoggDriver.max_records`. -/
def max_records : Int := 51200

def ACTION_GET_HISTORY : Nat := 0x00
def ACTION_REQ_SET_CONFIG : Nat := 0x02
def ACTION_GET_CONFIG : Nat := 0x03
def ACTION_GET_CURRENT : Nat := 0x04
def ACTION_SEND_CONFIG : Nat := 0x20
def ACTION_SEND_TIME : Nat := 0x60

def RESPONSE_DATA_WRITTEN : Nat := 0x10
def RESPONSE_GET_CONFIG : Nat := 0x20
def RESPONSE_GET_CURRENT : Nat := 0x30
def RESPONSE_GET_HISTORY : Nat := 0x40
def RESPONSE_REQUEST : Nat := 0x50
def RESPONSE_REQ_READ_HISTORY : Nat := 0x50
def RESPONSE_REQ_FIRST_CONFIG : Nat := 0x51
def RESPONSE_REQ_SET_CONFIG : Nat := 0x52
def RESPONSE_REQ_SET_TIME : Nat := 0x53

def HI_01MIN : Nat := 0
def HI_05MIN : Nat := 1

def LOGGER_1 : Nat := 0

/-- The `history_intervals` table: interval code to minutes.  A lookup miss
makes the Python source crash (`60 * None`), mirrored by `none`. -/
def history_intervals (code : Nat) : Option Nat :=
  match code with
  | 0 => some 1
  | 1 => some 5
  | 2 => some 10
  | 3 => some 15
  | 4 => some 30
  | 5 => some 60
  | 6 => some 120
  | 7 => some 180
  | 8 => some 360
  | _ => none

/-- `SensorLimits`, temperatures in tenths of a degree. -/
def temperature_offset : Int := 400
def temperature_NP : Int := 811
def temperature_OFL : Int := 1360
def humidity_NP : Int := 110
def humidity_OFL : Int := 121

/-- View a frame (`List Nat`) as a total buffer; Python list reads in the
engine are always in bounds for well-formed frames, out-of-range reads
default to 0 here. -/
def listBuf (l : List Nat) : Nat → Nat := fun i => l.getD i 0

/-- `calc_checksum(buf, start, end)`: unsigned sum of `buf[start..end)`. -/
def calc_checksum (buf : Nat → Nat) (s e : Nat) : Nat :=
  ∑ i in Finset.Ico s e, buf i

/-- `get_index(idx)`: fold an index into `[0, max_records)` by one wrap. -/
def get_index (idx : Int) : Int :=
  if idx < 0 then idx + max_records
  else if max_records ≤ idx then idx - max_records
  else idx

/-- `bytes_to_addr(a, b, c)`. -/
def bytes_to_addr (a b c : Nat) : Nat := (((a <<< 8) ||| b) <<< 8) ||| c

/-- `addr_to_index(addr)`; Python 2 `/` is floor division. -/
def addr_to_index (addr : Nat) : Int := ((addr : Int) - 0x070000).fdiv 32

/-- `index_to_addr(idx)`. -/
def index_to_addr (idx : Int) : Int := 32 * idx + 0x070000

/-! ## Nibble codec (`class Decode`) -/

def hiNib (b : Nat) : Nat := b >>> 4
def loNib (b : Nat) : Nat := b &&& 0xF

/-- `Decode.isErr3`. -/
def isErr3 (buf : List Nat) (start : Nat) (hi : Bool) : Bool :=
  let b := listBuf buf
  if hi then
    (10 ≤ hiNib (b start) && hiNib (b start) != 15) ||
    (10 ≤ loNib (b start) && loNib (b start) != 15) ||
    (10 ≤ hiNib (b (start + 1)) && hiNib (b (start + 1)) != 15)
  else
    (10 ≤ loNib (b start) && loNib (b start) != 15) ||
    (10 ≤ hiNib (b (start + 1)) && hiNib (b (start + 1)) != 15) ||
    (10 ≤ loNib (b (start + 1)) && loNib (b (start + 1)) != 15)

/-- `Decode.isOFL3`. -/
def isOFL3 (buf : List Nat) (start : Nat) (hi : Bool) : Bool :=
  let b := listBuf buf
  if hi then
    (hiNib (b start) == 15) || (loNib (b start) == 15) ||
    (hiNib (b (start + 1)) == 15)
  else
    (loNib (b start) == 15) || (hiNib (b (start + 1)) == 15) ||
    (loNib (b (start + 1)) == 15)

/-- `Decode.isErr2`. -/
def isErr2 (buf : List Nat) (start : Nat) (hi : Bool) : Bool :=
  let b := listBuf buf
  if hi then
    (10 ≤ hiNib (b start) && hiNib (b start) != 15) ||
    (10 ≤ loNib (b start) && loNib (b start) != 15)
  else
    (10 ≤ loNib (b start) && loNib (b start) != 15) ||
    (10 ≤ hiNib (b (start + 1)) && hiNib (b (start + 1)) != 15)

/-- `Decode.isOFL2`. -/
def isOFL2 (buf : List Nat) (start : Nat) (hi : Bool) : Bool :=
  let b := listBuf buf
  if hi then (hiNib (b start) == 15) || (loNib (b start) == 15)
  else (loNib (b start) == 15) || (hiNib (b (start + 1)) == 15)

/-- `Decode.toInt_2`. -/
def toInt_2 (buf : List Nat) (start : Nat) (hi : Bool) : Nat :=
  let b := listBuf buf
  if hi then hiNib (b start) * 10 + loNib (b start)
  else loNib (b start) * 10 + hiNib (b (start + 1))

/-- `Decode.toTemperature_3_1`, result in tenths of a degree Celsius. -/
def toTemperature_3_1 (buf : List Nat) (start : Nat) (hi : Bool) : Int :=
  if isErr3 buf start hi then temperature_NP
  else if isOFL3 buf start hi then temperature_OFL
  else
    let b := listBuf buf
    let rawtenths : Int :=
      if hi then
        (hiNib (b start) : Int) * 100 + (loNib (b start) : Int) * 10 +
          (hiNib (b (start + 1)) : Int)
      else
        (loNib (b start) : Int) * 100 + (hiNib (b (start + 1)) : Int) * 10 +
          (loNib (b (start + 1)) : Int)
    rawtenths - temperature_offset

/-- `Decode.toHumidity_2_0`. -/
def toHumidity_2_0 (buf : List Nat) (start : Nat) (hi : Bool) : Int :=
  if isErr2 buf start hi then humidity_NP
  else if isOFL2 buf start hi then humidity_OFL
  else (toInt_2 buf start hi : Int)

/-- `Decode.CHARMAP`: the 64-symbol description alphabet, indexed by 6-bit
code. -/
def CHARMAP : List Char :=
  [' ', '1', '2', '3', '4', '5', '6', '7', '8', '9',
   '0', 'A', 'B', 'C', 'D', 'E', 'F', 'G', 'H', 'I',
   'J', 'K', 'L', 'M', 'N', 'O', 'P', 'Q', 'R', 'S',
   'T', 'U', 'V', 'W', 'X', 'Y', 'Z', '-', '+', '(',
   ')', 'o', '*', ',', '/', '\\', ' ', '.', ' ', ' ',
   ' ', ' ', ' ', ' ', ' ', ' ', ' ', ' ', ' ', ' ',
   ' ', ' ', ' ', '@']

/-- `Decode.CHARSTR`: the encoder alphabet string; a character's position in
it is its 6-bit code ('!' at position 0 encodes the blank). -/
def CHARSTR : List Char :=
  ['!', '1', '2', '3', '4', '5', '6', '7', '8', '9',
   '0', 'A', 'B', 'C', 'D', 'E', 'F', 'G', 'H', 'I',
   'J', 'K', 'L', 'M', 'N', 'O', 'P', 'Q', 'R', 'S',
   'T', 'U', 'V', 'W', 'X', 'Y', 'Z', '-', '+', '(',
   ')', 'o', '*', ',', '/', '\\', ' ', '.']

/-- Python `str.find` over a character list: first index or -1. -/
def strFindAux : List Char → Char → Int → Int
  | [], _, _ => -1
  | c :: cs, d, i => if c = d then i else strFindAux cs d (i + 1)

/-- `Decode.CHARSTR.find(ch)`. -/
def charstrFind (c : Char) : Int := strFindAux CHARSTR c 0

/-- `Decode.toCharacters3_2`: 3 nibbles to two 6-bit characters. -/
def toCharacters3_2 (buf : List Nat) (start : Nat) (hi : Bool) : List Char :=
  let b := listBuf buf
  let idx1 :=
    if hi then ((b (start + 1) >>> 2) &&& 0x3C) + ((b start >>> 2) &&& 0x3)
    else ((b (start + 1) <<< 2) &&& 0x3C) + ((b (start + 1) >>> 6) &&& 0x3)
  let idx2 :=
    if hi then ((b start <<< 4) &&& 0x30) + ((b start >>> 4) &&& 0xF)
    else (b (start + 1) &&& 0x30) + (b start &&& 0xF)
  [CHARMAP.getD idx1 ' ', CHARMAP.getD idx2 ' ']

/-! ## Station configuration (`class StationConfig`)

The `values` dict of `StationConfig`, plus the `read_config_sensor_texts`
attribute.  Temperatures are tenths of a degree (`Int`), humidities `Int`.
`Description x` / `SensorText x` are meaningful for slots `x = 1..8`. -/

structure ConfigValues where
  InBufCS : Nat
  OutBufCS : Nat
  Settings : Nat
  TimeZone : Nat
  HistoryInterval : Nat
  AlarmSet : List Nat
  ResetHiLo : Nat
  TempMax : Nat → Int
  TempMin : Nat → Int
  HumidityMax : Nat → Int
  HumidityMin : Nat → Int
  Description : Nat → List Nat
  SensorText : Nat → String
  read_config_sensor_texts : Bool

/-- `StationConfig.__init__`. -/
def ConfigValues.init : ConfigValues where
  InBufCS := 0
  OutBufCS := 0
  Settings := 0
  TimeZone := 0
  HistoryInterval := 0
  AlarmSet := [0, 0, 0, 0, 0]
  ResetHiLo := 0
  TempMax := fun _ => temperature_NP
  TempMin := fun _ => temperature_NP
  HumidityMax := fun _ => humidity_NP
  HumidityMin := fun _ => humidity_NP
  Description := fun _ => [0, 0, 0, 0, 0, 0, 0, 0]
  SensorText := fun _ => ""
  read_config_sensor_texts := true

/-- The `StationConfig.BUFMAP` rows. -/
def BUFMAP0 : List Nat := [8, 11, 14, 17, 20, 23, 26, 29, 32]
def BUFMAP1 : List Nat := [9, 12, 15, 18, 21, 24, 27, 30, 33]
def BUFMAP2 : List Nat := [35, 37, 39, 41, 43, 45, 47, 49, 51]
def BUFMAP3 : List Nat := [36, 38, 40, 42, 44, 46, 48, 50, 52]
def BUFMAP4 : List Nat := [58, 66, 74, 82, 90, 98, 106, 114]

/-- In-place write into the outgoing buffer. -/
def upd (b : Nat → Nat) (i v : Nat) : Nat → Nat :=
  fun j => if j = i then v else b j

/-- Swap two buffer cells (one step of `reverseByteOrder`). -/
def swapB (b : Nat → Nat) (i j : Nat) : Nat → Nat :=
  fun k => if k = i then b j else if k = j then b i else b k

/-- `StationConfig.reverseByteOrder(buf, start, count)`. -/
def reverseByteOrder (b : Nat → Nat) (start count : Nat) : Nat → Nat :=
  (List.range (count >>> 1)).foldl
    (fun b i => swapB b (start + i) (start + count - i - 1)) b

/-- `StationConfig.parse_0(number, buf, start, startOnHiNibble, numbytes)`:
write a 3-digit decimal number into nibbles.  Only `numbytes` 2 and 3 occur
in the source. -/
def parse_0 (number : Int) (b : Nat → Nat) (start : Nat) (hi : Bool)
    (numbytes : Nat) : Nat → Nat :=
  let nbuf0 : Nat := if 2 < numbytes then (number.emod 10).toNat else 0
  let num1 : Int := if 2 < numbytes then number.fdiv 10 else number
  let nbuf1 : Nat := (num1.emod 10).toNat
  let nbuf2 : Nat := ((num1.fdiv 10).emod 10).toNat
  if hi then
    let b1 := upd b start (nbuf2 * 16 + nbuf1)
    if 2 < numbytes then upd b1 (start + 1) (nbuf0 * 16 + (b (start + 2) &&& 0x0F))
    else b1
  else
    let b1 := upd b start ((b start &&& 0xF0) + nbuf2)
    if 2 < numbytes then upd b1 (start + 1) (nbuf1 * 16 + nbuf0)
    else b1

/-- `StationConfig.parse_1`: temperatures carry one decimal; with the tenths
representation this is `parse_0` of the tenths value itself. -/
def parse_1 (tenths : Int) (b : Nat → Nat) (start : Nat) (hi : Bool)
    (numbytes : Nat) : Nat → Nat :=
  parse_0 tenths b start hi numbytes

/-- The per-slot body of the `for x in range(0, 9)` loop in
`testConfigChanged`. -/
def renderSlot (c : ConfigValues) (b : Nat → Nat) (x : Nat) : Nat → Nat :=
  let b := parse_1 (c.TempMax x + temperature_offset) b (BUFMAP0.getD x 0) true 3
  let b := parse_1 (c.TempMin x + temperature_offset) b (BUFMAP1.getD x 0) false 3
  let b := reverseByteOrder b (BUFMAP0.getD x 0) 3
  let b := parse_0 (c.HumidityMax x) b (BUFMAP2.getD x 0) true 2
  let b := parse_0 (c.HumidityMin x) b (BUFMAP3.getD x 0) true 2
  reverseByteOrder b (BUFMAP2.getD x 0) 2

/-- The buffer-build phase of `testConfigChanged`: bytes 0..122 of the
outgoing config buffer (`newbuf` before the checksum bytes are written). -/
def renderConfig (c : ConfigValues) : Nat → Nat :=
  let b : Nat → Nat := fun _ => 0
  let b := upd b 5 c.Settings
  let b := upd b 6 c.TimeZone
  let b := upd b 7 c.HistoryInterval
  let b := (List.range 9).foldl (renderSlot c) b
  let b := (List.range 5).foldl
    (fun b y => upd b (53 + y) (c.AlarmSet.reverse.getD y 0)) b
  let b := (List.range 8).foldl
    (fun b xm1 => (List.range 8).foldl
      (fun b y => upd b (BUFMAP4.getD xm1 0 + y)
        ((c.Description (xm1 + 1)).reverse.getD y 0)) b) b
  upd b 122 c.ResetHiLo

/-- The in-place clamp at the top of `testConfigChanged`: a
`HistoryInterval` above the 5-minute code is overwritten with the 5-minute
code. -/
def clampInterval (c : ConfigValues) : ConfigValues :=
  if HI_05MIN < c.HistoryInterval then { c with HistoryInterval := HI_05MIN }
  else c

/-- `StationConfig.testConfigChanged`: render the outgoing 125-byte config
buffer from the in-memory values (clamping `HistoryInterval` first),
recompute `OutBufCS` and compare it to `InBufCS`.  Returns
`(changed, newbuf, updated values)`. -/
def testConfigChanged (c0 : ConfigValues) : Bool × (Nat → Nat) × ConfigValues :=
  let c := clampInterval c0
  let b := renderConfig c
  let outCS := calc_checksum b 5 122 + 7
  let b := upd b 123 ((outCS >>> 8) &&& 0xFF)
  let b := upd b 124 (outCS &&& 0xFF)
  let c1 := { c with OutBufCS := outCS }
  (decide (outCS ≠ c.InBufCS), b, c1)

/-- `StationConfig.read(buf)`: decode a received 125-byte config frame.
The `read_config_sensor_texts` attribute is not part of the `values` dict
and survives. -/
def StationConfig.read (c : ConfigValues) (buf : List Nat) : ConfigValues :=
  let b := listBuf buf
  { InBufCS := (b 123 <<< 8) ||| b 124
    OutBufCS := calc_checksum b 5 122 + 7
    Settings := b 5
    TimeZone := b 6
    HistoryInterval := b 7 &&& 0xF
    AlarmSet := (List.range 5).map (fun i => b (53 + i))
    ResetHiLo := b 122
    TempMax := fun x => toTemperature_3_1 buf (BUFMAP0.getD x 0) true
    TempMin := fun x => toTemperature_3_1 buf (BUFMAP1.getD x 0) false
    HumidityMax := fun x => toHumidity_2_0 buf (BUFMAP2.getD x 0) true
    HumidityMin := fun x => toHumidity_2_0 buf (BUFMAP3.getD x 0) true
    Description := fun x => (List.range 8).map (fun i => b (BUFMAP4.getD (x - 1) 0 + i))
    SensorText := fun x =>
      let s := BUFMAP4.getD (x - 1) 0
      let t := String.mk (toCharacters3_2 buf (s + 6) false ++
        toCharacters3_2 buf (s + 5) true ++ toCharacters3_2 buf (s + 3) false ++
        toCharacters3_2 buf (s + 2) true ++ toCharacters3_2 buf s false)
      if t = " E@@      " then "(No sensor)" else t
    read_config_sensor_texts := c.read_config_sensor_texts }

/-- `StationConfig.setAlarmClockOffset`. -/
def setAlarmClockOffset (c : ConfigValues) : ConfigValues :=
  { c with
    HumidityMin := fun i => if i = 0 then 99 else c.HumidityMin i
    AlarmSet := c.AlarmSet.set 4 ((c.AlarmSet.getD 4 0 &&& 0xfd) + 0x2) }

/-- `StationConfig.resetAlarmClockOffset`. -/
def resetAlarmClockOffset (c : ConfigValues) : ConfigValues :=
  { c with
    HumidityMin := fun i => if i = 0 then 20 else c.HumidityMin i
    AlarmSet := c.AlarmSet.set 4 (c.AlarmSet.getD 4 0 &&& 0xfd) }

/-! ## Sensor-text presetter (`StationConfig.setSensorText`) -/

/-- Python `ljust` on a character list. -/
def ljustChars (l : List Char) (n : Nat) (c : Char) : List Char :=
  l ++ List.replicate (n - l.length) c

/-- The `text_ok` loop: every character of the configured text must have a
positive index in `CHARSTR` (`find(...) <= 0` marks it bad, so the padding
character '!' at index 0 is also refused). -/
def textOk (s : String) : Bool :=
  s.data.all (fun c => decide (0 < charstrFind c))

/-- The 6-bit packing of the 10 padded characters into the 8 description
bytes (`txt[0] .. txt[7]`). -/
def packDescription (padded : List Char) : List Nat :=
  let id : Nat → Nat := fun i => (charstrFind (padded.getD i '!')).toNat
  let i1 := id 0
  let i2 := id 1
  let i3 := id 2
  let i4 := id 3
  let i5 := id 4
  let i6 := id 5
  let i7 := id 6
  let i8 := id 7
  let i9 := id 8
  let i10 := id 9
  [i10 &&& 0x0F,
   ((i9 <<< 6) &&& 0xC0) + (i10 &&& 0x30) + ((i9 >>> 2) &&& 0x0F),
   ((i8 <<< 4) &&& 0xF0) + ((i7 <<< 2) &&& 0x0C) + ((i8 >>> 4) &&& 0x03),
   ((i7 <<< 2) &&& 0xF0) + (i6 &&& 0x0F),
   ((i5 <<< 6) &&& 0xC0) + (i6 &&& 0x30) + ((i5 >>> 2) &&& 0x0F),
   ((i4 <<< 4) &&& 0xF0) + ((i3 <<< 2) &&& 0x0C) + ((i4 >>> 4) &&& 0x03),
   ((i3 <<< 2) &&& 0xF0) + (i2 &&& 0x0F),
   ((i1 <<< 6) &&& 0xC0) + (i2 &&& 0x30) + ((i1 >>> 2) &&& 0x0F)]

/-- One iteration of the `for x in range(1, 9)` body of `setSensorText`.
`cur` is the slot's decoded `SensorText`, `txtOpt` the configured
`sensor_text<x>` (Python `None` as `none`) and `padded` the loop-local
`padded_sensor_text` variable, which persists across slots within one call
and is unbound (`none`) before its first assignment.  The result is `none`
on the Python `NameError` raised when the over-long-text path reads the
unbound `padded_sensor_text`; otherwise it carries the new binding of
`padded_sensor_text` and, when the slot is stored, the new
`(Description, SensorText)` pair. -/
def setSensorTextSlot (cur : String) (txtOpt : Option String)
    (padded : Option (List Char)) :
    Option (Option (List Char) × Option (List Nat × String)) :=
  match txtOpt with
  | none => some (padded, none)
  | some s =>
    if 10 < s.length then
      -- the source only logs here; `sensor_text` stays set and the store
      -- path below still runs
      if cur = "(No sensor)" then some (padded, none)
      else
        match padded with
        | none => none
        | some p =>
          some (padded, some (packDescription p,
            String.mk (ljustChars s.data 10 ' ')))
    else
      if textOk s then
        let p := ljustChars s.data 10 '!'
        if cur = "(No sensor)" then some (some p, none)
        else some (some p, some (packDescription p,
          String.mk (ljustChars s.data 10 ' ')))
      else some (padded, none)

/-- `StationConfig.setSensorText(values)`: runs once, after the first
config decode (`InBufCS != 0`), over slots 1..8.  `none` models the
`NameError` crash described at `setSensorTextSlot`. -/
def setSensorText (c : ConfigValues) (texts : Nat → Option String) :
    Option ConfigValues :=
  if c.InBufCS ≠ 0 ∧ c.read_config_sensor_texts then
    let step : ConfigValues × Option (List Char) → Nat →
        Option (ConfigValues × Option (List Char)) := fun st x =>
      match setSensorTextSlot (st.1.SensorText x) (texts x) st.2 with
      | none => none
      | some (padded, none) => some (st.1, padded)
      | some (padded, some (desc, txt)) =>
        some ({ st.1 with
                Description := fun i => if i = x then desc else st.1.Description i
                SensorText := fun i => if i = x then txt else st.1.SensorText i },
              padded)
    match (List.range 8).foldlM (fun st xm1 => step st (xm1 + 1))
        ({ c with read_config_sensor_texts := false }, none) with
    | none => none
    | some st => some st.1
  else some c

/-! ## Engine state (`class CommunicationService`) -/

/-- `class HistoryCache` (the record list keeps only the timestamps of the
appended records; the full `asDict` payloads are functions of the frame and
are not inspected by any engine decision). -/
structure HistoryCacheSt where
  since_ts : Int
  num_rec : Int
  start_index : Option Int
  next_index : Option Int
  records : List Int
  num_outstanding_records : Option Int
  num_scanned : Nat

/-- `HistoryCache.clear_records`. -/
def HistoryCacheSt.clear : HistoryCacheSt where
  since_ts := 0
  num_rec := 0
  start_index := none
  next_index := none
  records := []
  num_outstanding_records := none
  num_scanned := 0

/-- The mutable fields of `CommunicationService` (together with `LastStat`)
that the frame handlers read or write. -/
structure EngineState where
  cfg : ConfigValues
  lastLinkQuality : Option Nat
  lastHistoryIndex : Option Int
  latestHistoryIndex : Option Int
  lastSeenTs : Option Int
  lastWeatherTs : Int
  lastHistoryTs : Int
  lastConfigTs : Int
  commModeInterval : Nat
  command : Option Nat
  cache : HistoryCacheSt
  tsLastRec : Int
  recordsAppended : Nat
  recordsSkipped : Nat
  current : Option (List Nat)
  sensorTexts : Nat → Option String
  deviceId : Nat
  registeredDeviceId : Option Nat
  limitRecReadTo : Int

/-- `CommunicationService.startCachingHistory(since_ts, num_rec)`. -/
def startCachingHistory (s : EngineState) (sinceTs : Option Int)
    (numRec : Int) : EngineState :=
  let since := sinceTs.getD 0
  let nr := if max_records - 2 < numRec then max_records - 2 else numRec
  { s with
    cache := { HistoryCacheSt.clear with since_ts := since, num_rec := nr }
    command := some ACTION_GET_HISTORY }

/-- The history-address field of an ACK: `hidx` (defaulting to the latest
known history index) converted to a 24-bit address, or the `0xFFFFFF`
sentinel when unknown or out of range. -/
def ackHistoryAddr (s : EngineState) (hidx : Option Int) : Nat :=
  let hidx := match hidx with
    | some h => some h
    | none => s.latestHistoryIndex
  match hidx with
  | none => 0xffffff
  | some h =>
    if h < 0 ∨ max_records ≤ h then 0xffffff else (index_to_addr h).toNat

/-- `CommunicationService.buildACKFrame(buf, action, cs, hidx)`: the 11-byte
ACK, including the morph of a stale `GetHistory` into `GetCurrent`. -/
def buildACKFrame (s : EngineState) (now : Int) (buf : List Nat)
    (action : Nat) (cs : Nat) (hidx : Option Int) : List Nat :=
  let comInt := s.commModeInterval
  let action :=
    if s.command = some ACTION_GET_HISTORY then
      if action = ACTION_GET_HISTORY ∧
          ((comInt : Int) + 1) * 2 ≤ now - s.lastWeatherTs ∧
          listBuf buf 1 ≠ 0xF0 then
        ACTION_GET_CURRENT
      else action
    else action
  let haddr := ackHistoryAddr s hidx
  [listBuf buf 0, listBuf buf 1, LOGGER_1, action &&& 0xF,
   (cs >>> 8) &&& 0xFF, cs &&& 0xFF, 0x80, comInt &&& 0xFF,
   (haddr >>> 16) &&& 0xFF, (haddr >>> 8) &&& 0xFF, haddr &&& 0xFF]

/-- `CommunicationService.handleConfig(length, buf)`. -/
def handleConfig (s : EngineState) (now : Int) (buf : List Nat) :
    EngineState × List Nat :=
  let cfg := StationConfig.read s.cfg buf
  let s := { s with
    cfg := cfg
    lastSeenTs := some now
    lastLinkQuality := some (listBuf buf 4 &&& 0x7f)
    lastConfigTs := now }
  let cs := listBuf buf 124 ||| (listBuf buf 123 <<< 8)
  (s, buildACKFrame s now buf ACTION_GET_HISTORY cs none)

/-- `CommunicationService.handleCurrentData(length, buf)`.  The decoded
`CurrentData` snapshot is a pure projection of `buf` that no engine
decision reads back, so the snapshot keeps the source buffer.  `none`
models the `NameError` that `setSensorText` can raise. -/
def handleCurrentData (s : EngineState) (now : Int) (buf : List Nat) :
    Option (EngineState × List Nat) :=
  let age := now - s.lastWeatherTs
  let s := { s with
    current := if (s.commModeInterval : Int) ≤ age then some buf
               else s.current
    lastSeenTs := some now
    lastLinkQuality := some (listBuf buf 4 &&& 0x7f)
    lastWeatherTs := now }
  let cs := listBuf buf 6 ||| (listBuf buf 5 <<< 8)
  match setSensorText s.cfg s.sensorTexts with
  | none => none
  | some cfg1 =>
    let r := testConfigChanged cfg1
    let s := { s with cfg := r.2.2 }
    let inBufCS := r.2.2.InBufCS
    if inBufCS = 0 ∨ inBufCS ≠ cs then
      some (s, buildACKFrame s now buf ACTION_GET_CONFIG cs none)
    else if r.1 then
      some (s, buildACKFrame s now buf ACTION_REQ_SET_CONFIG cs none)
    else
      some (s, buildACKFrame s now buf ACTION_GET_HISTORY cs none)

/-! ## History handler (`CommunicationService.handleHistoryData`) -/

/-- `tstr_to_ts(str(datetime(1900, 1, 1)))` on the development host; the
invalid-date sentinel.  Claims depend only on it being a fixed value far
below `TS_2010_07`. -/
def TS_1900 : Int := -2208988800

/-- `tstr_to_ts(str(datetime(2010, 7, 1)))`: the hard floor for accepted
history records. -/
def TS_2010_07 : Int := 1277935200

/-- One decoded history-frame position: the alarm marker
(`Pos<x>Alarm`, from `buf[BUFMAPALA[x][0]] == 0xee`) and the converted
timestamp `tstr_to_ts(str(Pos<x>DT))` (`none` for Python `None`). -/
structure HistPos where
  alarm : Nat
  ts : Option Int

/-- The loop-carried counters of the record-acceptance loop. -/
structure HistLoopSt where
  records : List Int
  appended : Nat
  skipped : Nat
  tsLast : Int

/-- One iteration of the `for x in range(1, 7)` acceptance loop.  A `none`
timestamp orders below every integer in Python 2, so it fails
`tsCurrentRec >= TS_2010_07` and lands in a skip branch.  The four
`elif ... skipped` branches and the two trailing skip branches all only
increment `records_skipped`. -/
def histRecordStep (sinceTs now : Int) (st : HistLoopSt) (p : HistPos) :
    HistLoopSt :=
  if p.alarm = 0 then
    match p.ts with
    | none => { st with skipped := st.skipped + 1 }
    | some t =>
      if TS_2010_07 ≤ t ∧ sinceTs ≤ t then
        if now + 300 < t then { st with skipped := st.skipped + 1 }
        else if t = st.tsLast then { st with skipped := st.skipped + 1 }
        else if t < st.tsLast then { st with skipped := st.skipped + 1 }
        else if st.tsLast ≠ 0 ∧ st.tsLast + 86400 < t then
          { st with skipped := st.skipped + 1 }
        else
          { st with
            records := st.records ++ [t]
            appended := st.appended + 1
            tsLast := t }
      else { st with skipped := st.skipped + 1 }
  else st

/-- The acceptance loop over the six positions. -/
def histLoop (sinceTs now : Int) (st : HistLoopSt) (ps : List HistPos) :
    HistLoopSt :=
  ps.foldl (histRecordStep sinceTs now) st

/-- The `thisIndexOk` range check: `thisIndex` must lie in
`(indexRequested, indexRequested + 6]` modulo `max_records`. -/
def thisIndexOkCheck (req ti : Int) : Bool :=
  if req + 6 < max_records then decide (req + 1 ≤ ti ∧ ti ≤ req + 6)
  else if req = max_records - 1 then decide (0 ≤ ti ∧ ti ≤ 5)
  else decide (req < ti ∨ ti ≤ req + 6 - max_records)

/-- `latestIndex` as decoded from frame bytes 7..9. -/
def frameLatestIndex (buf : List Nat) : Int :=
  addr_to_index (bytes_to_addr (listBuf buf 7) (listBuf buf 8) (listBuf buf 9))

/-- `thisIndex` as decoded from frame bytes 10..12, before the start-up
adjustment. -/
def frameThisIndexRaw (buf : List Nat) : Int :=
  addr_to_index (bytes_to_addr (listBuf buf 10) (listBuf buf 11) (listBuf buf 12))

/-- `thisIndex` after the `thisIndex == 6 and latestIndex > 12` start-up
adjustment. -/
def frameThisIndex (buf : List Nat) : Int :=
  if frameThisIndexRaw buf = 6 ∧ 12 < frameLatestIndex buf then 1
  else frameThisIndexRaw buf

/-- The `if self.command == ACTION_GET_HISTORY` block of
`handleHistoryData` up to (but not including) `num_scanned` and
`num_outstanding_records` bookkeeping: on the first frame after
`startCachingHistory` it sizes the request and plants the cursor, on later
frames it validates `thisIndex` and runs the acceptance loop.  The result
carries the updated state, the (possibly rewritten) `nrec` and the
`nextIndex` for the outgoing ACK; `none` is the crash on an unknown
`HistoryInterval` code (`60 * history_intervals.get(...)` with a `None`
lookup). -/
def histCatchupStep (s : EngineState) (now latestIndex thisIndex nrec : Int)
    (pos : Nat → HistPos) : Option (EngineState × Int × Option Int) :=
  match s.cache.start_index with
  | none =>
    let nreqOpt : Option Int :=
      if 0 < s.cache.num_rec then some s.cache.num_rec
      else if 0 < s.cache.since_ts then
        match history_intervals s.cfg.HistoryInterval with
        | none => none
        | some mins =>
          let arcint : Int := 60 * (mins : Int)
          let span := now - s.cache.since_ts
          let nreq := span.fdiv arcint + 5
          some (if nrec < nreq then nrec else nreq)
      else some nrec
    match nreqOpt with
    | none => none
    | some nreq0 =>
      let nreq := if s.limitRecReadTo < nreq0 then s.limitRecReadTo else nreq0
      let nrec := if max_records ≤ nreq then max_records - 1 else nrec
      let idx := get_index (latestIndex - nreq)
      let s := { s with
        cache := { s.cache with
          start_index := some idx
          next_index := some idx
          num_outstanding_records := some nreq }
        lastHistoryIndex := some idx
        recordsAppended := 0
        recordsSkipped := 0
        tsLastRec := 0 }
      some (s, nrec, some idx)
  | some _ =>
    match s.cache.next_index with
    | none => some (s, nrec, none)
    | some req =>
      if thisIndexOkCheck req thisIndex then
        let lst := histLoop s.cache.since_ts now
          ⟨s.cache.records, s.recordsAppended, s.recordsSkipped, s.tsLastRec⟩
          [pos 1, pos 2, pos 3, pos 4, pos 5, pos 6]
        let s := { s with
          cache := { s.cache with
            records := lst.records
            next_index := some thisIndex }
          recordsAppended := lst.appended
          recordsSkipped := lst.skipped
          tsLastRec := lst.tsLast }
        some (s, nrec, some thisIndex)
      else
        some (s, nrec, s.cache.next_index)

/-- The per-frame epilogue of the catch-up branch: `num_scanned += 1` and
`num_outstanding_records = nrec`, then the outgoing ACK. -/
def histFinish (s : EngineState) (now : Int) (buf : List Nat) (cs : Nat)
    (nrec : Int) (nextIndex : Option Int) : EngineState × List Nat :=
  let s := { s with cache := { s.cache with
    num_scanned := s.cache.num_scanned + 1
    num_outstanding_records := some nrec } }
  (s, buildACKFrame s now buf ACTION_GET_HISTORY cs nextIndex)

/-- The DCF clock-alarm block of `handleHistoryData`: when the first and
sixth positions are history records sharing a valid timestamp, set or
reset the `Humidity0Min` clock alarm depending on how far that timestamp
sits from the server clock. -/
def dcfAlarmCfg (c : ConfigValues) (pos : Nat → HistPos) (now : Int) :
    ConfigValues :=
  let tsPos1 := (pos 1).ts
  let tsPos6 := (pos 6).ts
  let tsFirstRec := if tsPos1 = some TS_1900 then (pos 2).ts else tsPos1
  let timeDiff : Int := match tsFirstRec with
    | none => 0
    | some t => if t = TS_1900 then 0 else ((now - t).natAbs : Int)
  if (pos 1).alarm = 0 ∧ (pos 6).alarm = 0 then
    if tsPos1 = tsPos6 ∧ tsPos1 ≠ some TS_1900 then
      if 300 < timeDiff then setAlarmClockOffset c
      else resetAlarmClockOffset c
    else c
  else c

/-- `CommunicationService.handleHistoryData(length, buf)`.  `pos x` is the
decoded position `x` (1..6) of the frame, see `HistPos`.  `none` models the
crash on an unknown `HistoryInterval` code
(`60 * history_intervals.get(...)` with a `None` lookup). -/
def handleHistoryData (s : EngineState) (now : Int) (buf : List Nat)
    (pos : Nat → HistPos) : Option (EngineState × List Nat) :=
  let cs := listBuf buf 6 ||| (listBuf buf 5 <<< 8)
  let latestIndex := frameLatestIndex buf
  let thisIndex := frameThisIndex buf
  let nrec := get_index (latestIndex - thisIndex)
  let s := { s with
    lastSeenTs := some now
    lastLinkQuality := some (listBuf buf 4 &&& 0x7f)
    lastHistoryTs := now
    cfg := dcfAlarmCfg s.cfg pos now
    lastHistoryIndex := some thisIndex
    latestHistoryIndex := some latestIndex }
  if s.command = some ACTION_GET_HISTORY then
    match histCatchupStep s now latestIndex thisIndex nrec pos with
    | none => none
    | some r => some (histFinish r.1 now buf cs r.2.1 r.2.2)
  else
    some (s, buildACKFrame s now buf ACTION_GET_HISTORY cs none)

/-! ## Remaining builders and the dispatcher (`generateResponse`) -/

/-- A `time.localtime()` reading for `buildTimeFrame`; `wday` is
Python's Monday = 0 convention. -/
structure Tm where
  sec : Nat
  min : Nat
  hour : Nat
  mday : Nat
  mon : Nat
  year : Nat
  wday : Nat

/-- `CommunicationService.buildTimeFrame(buf, cs)`. -/
def buildTimeFrame (buf : List Nat) (cs : Nat) (tm : Tm) : List Nat :=
  let dow := tm.wday + 1
  [listBuf buf 0, listBuf buf 1, LOGGER_1, ACTION_SEND_TIME,
   (cs >>> 8) &&& 0xFF, cs &&& 0xFF,
   (tm.sec % 10) + 0x10 * (tm.sec / 10),
   (tm.min % 10) + 0x10 * (tm.min / 10),
   (tm.hour % 10) + 0x10 * (tm.hour / 10),
   dow % 10 + 0x10 * (tm.mday % 10),
   (tm.mday / 10) + 0x10 * (tm.mon % 10),
   (tm.mon / 10) + 0x10 * ((tm.year - 2000) % 10),
   (tm.year - 2000) / 10]

/-- `CommunicationService.buildFirstConfigFrame(cs)`. -/
def buildFirstConfigFrame (s : EngineState) : List Nat :=
  [0xF0, 0xF0, 0xFF, ACTION_GET_CONFIG, 0xFF, 0xFF, 0x80,
   s.commModeInterval &&& 0xFF, 0x01, 0x07, 0x00]

/-- `CommunicationService.buildConfigFrame(buf)`: the 125-byte SetConfig
frame (or the `(0, [0])` placeholder when the outgoing config is in sync). -/
def buildConfigFrame (s : EngineState) (buf : List Nat) :
    EngineState × List Nat :=
  let r := testConfigChanged s.cfg
  let s := { s with cfg := r.2.2 }
  if r.1 then
    (s, [listBuf buf 0, listBuf buf 1, LOGGER_1, ACTION_SEND_CONFIG,
         listBuf buf 4] ++ (List.range 120).map (fun i => r.2.1 (5 + i)))
  else (s, [0])

/-- `CommunicationService.handleNextAction(length, buf)`. -/
def handleNextAction (s : EngineState) (now : Int) (tm : Tm) (length : Nat)
    (buf : List Nat) : EngineState × List Nat :=
  let s := { s with
    lastSeenTs := some now
    lastLinkQuality := some (listBuf buf 4 &&& 0x7f) }
  let cs := listBuf buf 6 ||| (listBuf buf 5 <<< 8)
  let resp := listBuf buf 3
  if resp = RESPONSE_REQ_READ_HISTORY then (s, buf.take length)
  else if resp = RESPONSE_REQ_FIRST_CONFIG then (s, buildFirstConfigFrame s)
  else if resp = RESPONSE_REQ_SET_CONFIG then buildConfigFrame s buf
  else if resp = RESPONSE_REQ_SET_TIME then (s, buildTimeFrame buf cs tm)
  else (s, buildACKFrame s now buf ACTION_GET_HISTORY cs none)

/-- Outcome of `generateResponse`: an outbound frame, or one of the
control-flow signals (`DataWritten`, `BadResponse`, `UnknownDeviceId`). -/
inductive RespResult where
  | frame (s : EngineState) (out : List Nat)
  | dataWritten (s : EngineState)
  | badResponse (s : EngineState)
  | unknownDevice (s : EngineState)

/-- `CommunicationService.generateResponse(length, buf)`.  `tm` and `pos`
carry the clock reading and the decoded history positions used by the
respective handlers; `none` models a handler crash (see `setSensorText`
and `handleHistoryData`). -/
def generateResponse (s : EngineState) (now : Int) (tm : Tm) (length : Nat)
    (buf : List Nat) (pos : Nat → HistPos) : Option RespResult :=
  if length = 0 then some (.badResponse s)
  else
    let bufferID := (listBuf buf 0 <<< 8) ||| listBuf buf 1
    let respType := listBuf buf 3 &&& 0xF0
    let deviceID := s.deviceId
    if bufferID = 0xF0F0 then
      some (.frame s (buildACKFrame s now buf ACTION_GET_CONFIG deviceID
        (some 0xFFFF)))
    else if bufferID = deviceID then
      let s := { s with registeredDeviceId := some bufferID }
      if respType = RESPONSE_DATA_WRITTEN then
        if length = 0x07 then some (.dataWritten s) else some (.badResponse s)
      else if respType = RESPONSE_GET_CONFIG then
        if length = 0x7D then
          let r := handleConfig s now buf
          some (.frame r.1 r.2)
        else some (.badResponse s)
      else if respType = RESPONSE_GET_CURRENT then
        if length = 0xE5 then
          match handleCurrentData s now buf with
          | none => none
          | some r => some (.frame r.1 r.2)
        else some (.badResponse s)
      else if respType = RESPONSE_GET_HISTORY then
        if length = 0xB5 then
          match handleHistoryData s now buf pos with
          | none => none
          | some r => some (.frame r.1 r.2)
        else some (.badResponse s)
      else if respType = RESPONSE_REQUEST then
        if length = 0x07 then
          let r := handleNextAction s now tm length buf
          some (.frame r.1 r.2)
        else some (.badResponse s)
      else some (.badResponse s)
    else some (.unknownDevice s)

/-! ## Helper lemmas -/

theorem upd_apply_ne {b : Nat → Nat} {i v j : Nat} (h : j ≠ i) :
    upd b i v j = b j := by
  simp [upd, h]

theorem upd_apply_self {b : Nat → Nat} {i v : Nat} : upd b i v i = v := by
  simp [upd]

theorem swapB_apply_ne {b : Nat → Nat} {i j k : Nat} (h1 : k ≠ i)
    (h2 : k ≠ j) : swapB b i j k = b k := by
  simp [swapB, h1, h2]

/-- A left fold over buffer transformations leaves cell `j` alone when every
step does. -/
theorem foldl_apply_preserve {α : Type} (f : (Nat → Nat) → α → Nat → Nat)
    (l : List α) (b : Nat → Nat) (j : Nat)
    (h : ∀ b x, x ∈ l → f b x j = b j) : l.foldl f b j = b j := by
  induction l generalizing b with
  | nil => rfl
  | cons a t ih =>
    rw [List.foldl_cons, ih (f b a) (fun b x hx => h b x (List.mem_cons_of_mem a hx)),
      h b a (List.mem_cons_self a t)]

theorem reverseByteOrder_apply_lt {b : Nat → Nat} {start count j : Nat}
    (h : j < start) : reverseByteOrder b start count j = b j := by
  unfold reverseByteOrder
  refine foldl_apply_preserve _ _ _ _ ?_
  intro b i hi
  have hlt : i < count / 2 := by
    simpa [Nat.shiftRight_succ, Nat.shiftRight_zero] using List.mem_range.mp hi
  exact swapB_apply_ne (by omega) (by omega)

theorem parse_0_apply_lt {n : Int} {b : Nat → Nat} {start : Nat} {hi : Bool}
    {nb j : Nat} (h : j < start) : parse_0 n b start hi nb j = b j := by
  have h1 : j ≠ start := by omega
  have h2 : j ≠ start + 1 := by omega
  simp [parse_0, upd, ite_apply, h1, h2]

theorem parse_0_apply_lt' {n : Int} {b : Nat → Nat} {start : Nat} {hi : Bool}
    {nb j : Nat} (h : j < start) : parse_1 n b start hi nb j = b j :=
  parse_0_apply_lt h

theorem renderSlot_apply_lt8 {c : ConfigValues} {b : Nat → Nat} {x j : Nat}
    (hx : x < 9) (hj : j < 8) : renderSlot c b x j = b j := by
  have hb : ∀ y < 9, 8 ≤ BUFMAP0.getD y 0 ∧ 8 ≤ BUFMAP1.getD y 0 ∧
      8 ≤ BUFMAP2.getD y 0 ∧ 8 ≤ BUFMAP3.getD y 0 := by decide
  obtain ⟨h0, h1, h2, h3⟩ := hb x hx
  unfold renderSlot
  rw [reverseByteOrder_apply_lt (by omega), parse_0_apply_lt (by omega),
    parse_0_apply_lt (by omega), reverseByteOrder_apply_lt (by omega),
    parse_0_apply_lt' (by omega), parse_0_apply_lt' (by omega)]

/-- Byte 7 of the rendered outgoing buffer is the (already clamped)
`HistoryInterval`; nothing after the `newbuf[7]` write touches it. -/
theorem renderConfig_apply_7 (c : ConfigValues) :
    renderConfig c 7 = c.HistoryInterval := by
  unfold renderConfig
  have hmain : ∀ b : Nat → Nat, (List.range 9).foldl (renderSlot c) b 7 = b 7 := by
    intro b
    refine foldl_apply_preserve _ _ _ _ ?_
    intro b x hx
    exact renderSlot_apply_lt8 (List.mem_range.mp hx) (by omega)
  have halarm : ∀ b : Nat → Nat,
      (List.range 5).foldl
        (fun b y => upd b (53 + y) (c.AlarmSet.reverse.getD y 0)) b 7 = b 7 := by
    intro b
    refine foldl_apply_preserve _ _ _ _ ?_
    intro b y _
    exact upd_apply_ne (by omega)
  have hdesc : ∀ b : Nat → Nat,
      (List.range 8).foldl
        (fun b xm1 => (List.range 8).foldl
          (fun b y => upd b (BUFMAP4.getD xm1 0 + y)
            ((c.Description (xm1 + 1)).reverse.getD y 0)) b) b 7 = b 7 := by
    intro b
    refine foldl_apply_preserve _ _ _ _ ?_
    intro b xm1 hmem
    refine foldl_apply_preserve _ _ _ _ ?_
    intro b y _
    have hall : ∀ y < 8, 58 ≤ BUFMAP4.getD y 0 := by decide
    have h58 : 58 ≤ BUFMAP4.getD xm1 0 := hall xm1 (List.mem_range.mp hmem)
    exact upd_apply_ne (by omega)
  rw [upd_apply_ne (by omega), hdesc, halarm, hmain, upd_apply_self]

theorem clampInterval_InBufCS (c : ConfigValues) :
    (clampInterval c).InBufCS = c.InBufCS := by
  unfold clampInterval
  split <;> rfl

theorem clampInterval_HistoryInterval_of_gt {c : ConfigValues}
    (h : HI_05MIN < c.HistoryInterval) :
    (clampInterval c).HistoryInterval = HI_05MIN := by
  simp [clampInterval, h]

theorem testConfigChanged_snd_OutBufCS (c : ConfigValues) :
    (testConfigChanged c).2.2.OutBufCS =
      calc_checksum (renderConfig (clampInterval c)) 5 122 + 7 := rfl

theorem testConfigChanged_snd_InBufCS (c : ConfigValues) :
    (testConfigChanged c).2.2.InBufCS = c.InBufCS := by
  have : (testConfigChanged c).2.2.InBufCS = (clampInterval c).InBufCS := rfl
  rw [this, clampInterval_InBufCS]

theorem testConfigChanged_snd_HistoryInterval (c : ConfigValues) :
    (testConfigChanged c).2.2.HistoryInterval =
      (clampInterval c).HistoryInterval := rfl

theorem testConfigChanged_buf_lt123 (c : ConfigValues) {i : Nat}
    (h : i < 123) :
    (testConfigChanged c).2.1 i = renderConfig (clampInterval c) i := by
  show upd (upd (renderConfig (clampInterval c)) 123 _) 124 _ i = _
  rw [upd_apply_ne (by omega), upd_apply_ne (by omega)]

theorem testConfigChanged_fst (c : ConfigValues) :
    (testConfigChanged c).1 =
      decide ((testConfigChanged c).2.2.OutBufCS ≠ c.InBufCS) := by
  have h1 : (testConfigChanged c).1 =
      decide ((calc_checksum (renderConfig (clampInterval c)) 5 122 + 7) ≠
        (clampInterval c).InBufCS) := rfl
  rw [h1, clampInterval_InBufCS, testConfigChanged_snd_OutBufCS]

theorem testConfigChanged_buf_7 (c : ConfigValues) :
    (testConfigChanged c).2.1 7 = (clampInterval c).HistoryInterval := by
  rw [testConfigChanged_buf_lt123 c (by omega), renderConfig_apply_7]

/-- Splitting the checksum sum at one position of the summed range. -/
theorem calc_checksum_erase (b : Nat → Nat) {i : Nat} (h5 : 5 ≤ i)
    (h122 : i < 122) :
    calc_checksum b 5 122 = (∑ j in (Finset.Ico 5 122).erase i, b j) + b i := by
  unfold calc_checksum
  rw [Finset.sum_erase_add _ _ (Finset.mem_Ico.mpr ⟨h5, h122⟩)]

/-- Two buffers agreeing off `i` inside the summed range have checksums
that differ exactly as the bytes at `i` do. -/
theorem calc_checksum_congr_off (b b' : Nat → Nat) {i : Nat} (h5 : 5 ≤ i)
    (h122 : i < 122)
    (hagree : ∀ j, 5 ≤ j → j < 122 → j ≠ i → b' j = b j) :
    calc_checksum b' 5 122 =
      (∑ j in (Finset.Ico 5 122).erase i, b j) + b' i := by
  rw [calc_checksum_erase b' h5 h122]
  congr 1
  refine Finset.sum_congr rfl ?_
  intro j hj
  have hj' := Finset.mem_of_mem_erase hj
  have hne := Finset.ne_of_mem_erase hj
  have hb := Finset.mem_Ico.mp hj'
  exact hagree j hb.1 hb.2 hne

/-- The ACK's action byte: the requested action, except that a `GetHistory`
request is morphed to `GetCurrent` while a history catch-up is running, the
last weather frame is stale and the inbound frame is not the wildcard
pairing frame. -/
theorem buildACKFrame_action (s : EngineState) (now : Int) (buf : List Nat)
    (action cs : Nat) (hidx : Option Int) :
    (buildACKFrame s now buf action cs hidx).getD 3 0 =
      (if s.command = some ACTION_GET_HISTORY then
        if action = ACTION_GET_HISTORY ∧
            ((s.commModeInterval : Int) + 1) * 2 ≤ now - s.lastWeatherTs ∧
            listBuf buf 1 ≠ 0xF0 then
          ACTION_GET_CURRENT
        else action
      else action) &&& 0xF := rfl

/-- A `CommunicationService` as of `__init__`, with transceiver DeviceID
0x1234 read from config flash and the default configuration values. -/
def engineState0 : EngineState where
  cfg := ConfigValues.init
  lastLinkQuality := none
  lastHistoryIndex := none
  latestHistoryIndex := none
  lastSeenTs := none
  lastWeatherTs := 0
  lastHistoryTs := 0
  lastConfigTs := 0
  commModeInterval := 8
  command := none
  cache := HistoryCacheSt.clear
  tsLastRec := 0
  recordsAppended := 0
  recordsSkipped := 0
  current := none
  sensorTexts := fun _ => none
  deviceId := 0x1234
  registeredDeviceId := none
  limitRecReadTo := 3001

/-! ## Claim theorems -/

/-- C8 counterexample: the three nibbles `0 0 0` decode (without any
sentinel) to exactly −40.0 °C (−400 tenths), which is not strictly inside
the open interval (−40, +96). -/
theorem C8_counterexample :
    toTemperature_3_1 [0, 0] 0 true = -400 ∧
    ¬(toTemperature_3_1 [0, 0] 0 true = temperature_NP ∨
      toTemperature_3_1 [0, 0] 0 true = temperature_OFL ∨
      (-400 < toTemperature_3_1 [0, 0] 0 true ∧
        toTemperature_3_1 [0, 0] 0 true < 960)) := by decide

/-- C8 (amended): for every buffer, start index and both nibble
alignments, the 3-nibble temperature decoder yields the not-present
sentinel 81.1 °C, the out-of-factory-limits sentinel 136.0 °C, or a value
in the half-open interval [−40.0, +96.0) °C (values in tenths; −40.0 is
attained by the all-zero nibbles). -/
theorem C8_temperature_range (buf : List Nat) (start : Nat) (hi : Bool)
    (h : start + 1 < buf.length) :
    toTemperature_3_1 buf start hi = temperature_NP ∨
    toTemperature_3_1 buf start hi = temperature_OFL ∨
    (-400 ≤ toTemperature_3_1 buf start hi ∧
      toTemperature_3_1 buf start hi < 960) := by
  unfold toTemperature_3_1
  split
  · exact Or.inl rfl
  next herr =>
    split
    · exact Or.inr (Or.inl rfl)
    next hofl =>
      refine Or.inr (Or.inr ?_)
      cases hi with
      | false =>
        simp only [isErr3, isOFL3, Bool.if_false_left, Bool.false_eq_true,
          if_false, Bool.or_eq_true, Bool.and_eq_true, decide_eq_true_eq,
          bne_iff_ne, ne_eq, beq_iff_eq, not_or] at herr hofl
        simp only [if_true, if_false, Bool.false_eq_true, reduceIte,
          temperature_offset]
        omega
      | true =>
        simp only [isErr3, isOFL3, Bool.if_false_left, Bool.false_eq_true,
          if_true, Bool.or_eq_true, Bool.and_eq_true, decide_eq_true_eq,
          bne_iff_ne, ne_eq, beq_iff_eq, not_or] at herr hofl
        simp only [if_true, if_false, Bool.false_eq_true, reduceIte,
          temperature_offset]
        omega

/-- C6: (a) decoding any 125-byte config frame recomputes
`OutBufCS = sum(buf[5..122)) + 7`; (b) the rendered outgoing buffer of
`testConfigChanged` satisfies the same equation; (c) flipping one bit of
one byte inside the summed range changes the checksum; (d) the config area
counts as unchanged exactly when `OutBufCS = InBufCS`. -/
theorem C6_config_checksum :
    (∀ (c : ConfigValues) (buf : List Nat), buf.length = 125 →
      (StationConfig.read c buf).OutBufCS =
        (∑ i in Finset.Ico 5 122, listBuf buf i) + 7) ∧
    (∀ c : ConfigValues,
      (testConfigChanged c).2.2.OutBufCS =
        (∑ i in Finset.Ico 5 122, (testConfigChanged c).2.1 i) + 7) ∧
    (∀ (b : Nat → Nat) (i k : Nat), 5 ≤ i → i < 122 → k < 8 →
      calc_checksum (upd b i (b i ^^^ (1 <<< k))) 5 122 + 7 ≠
        calc_checksum b 5 122 + 7) ∧
    (∀ c : ConfigValues,
      ((testConfigChanged c).1 = false ↔
        (testConfigChanged c).2.2.OutBufCS = c.InBufCS)) := by
  refine ⟨fun c buf _ => rfl, ?_, ?_, ?_⟩
  · intro c
    rw [testConfigChanged_snd_OutBufCS]
    unfold calc_checksum
    have hs : ∀ i ∈ Finset.Ico 5 122, (testConfigChanged c).2.1 i =
        renderConfig (clampInterval c) i := by
      intro i hi
      have hb := Finset.mem_Ico.mp hi
      exact testConfigChanged_buf_lt123 c (by omega)
    rw [Finset.sum_congr rfl hs]
  · intro b i k h5 h122 _ heq
    have hsum1 : calc_checksum (upd b i (b i ^^^ (1 <<< k))) 5 122 =
        (∑ j in (Finset.Ico 5 122).erase i, b j) + (b i ^^^ (1 <<< k)) := by
      rw [calc_checksum_congr_off b _ h5 h122
        (fun j _ _ hne => upd_apply_ne hne), upd_apply_self]
    have hsum2 : calc_checksum b 5 122 =
        (∑ j in (Finset.Ico 5 122).erase i, b j) + b i :=
      calc_checksum_erase b h5 h122
    rw [hsum1, hsum2] at heq
    have hflip : b i ^^^ (1 <<< k) = b i := by omega
    have hzero : (1 <<< k) = 0 := by
      calc (1 <<< k) = b i ^^^ (b i ^^^ (1 <<< k)) :=
            (Nat.xor_cancel_left _ _).symm
        _ = b i ^^^ b i := by rw [hflip]
        _ = 0 := Nat.xor_self _
    rw [Nat.one_shiftLeft] at hzero
    exact (pow_pos (by norm_num : (0 : Nat) < 2) k).ne' hzero
  · intro c
    rw [testConfigChanged_fst]
    simp

/-- C6 witness: the checksum facts instantiated on the all-zero 125-byte
buffer, the initial configuration and a flip of bit 0 of byte 5. -/
theorem C6_config_checksum_witness :
    (List.replicate 125 0).length = 125 ∧
    (StationConfig.read ConfigValues.init (List.replicate 125 0)).OutBufCS =
      (∑ i in Finset.Ico 5 122, listBuf (List.replicate 125 0) i) + 7 ∧
    (5 ≤ 5 ∧ 5 < 122 ∧ 0 < 8) ∧
    calc_checksum
        (upd (fun _ => 0) 5 ((fun _ => (0 : Nat)) 5 ^^^ (1 <<< 0))) 5 122 + 7 ≠
      calc_checksum (fun _ => 0) 5 122 + 7 ∧
    ((testConfigChanged ConfigValues.init).1 = false ↔
      (testConfigChanged ConfigValues.init).2.2.OutBufCS =
        ConfigValues.init.InBufCS) :=
  ⟨rfl, C6_config_checksum.1 ConfigValues.init _ rfl,
    ⟨le_refl 5, by norm_num, by norm_num⟩,
    C6_config_checksum.2.2.1 (fun _ => 0) 5 0 (le_refl 5) (by norm_num)
      (by norm_num),
    C6_config_checksum.2.2.2 ConfigValues.init⟩

/-- C10: rendering the outgoing config clamps a stored `HistoryInterval`
code above the 5-minute code to the 5-minute code, in the stored values and
in byte 7 of every rendered SetConfig payload; against a received buffer
`buf` that agrees with the rendered one everywhere else in the checksummed
range and whose own checksum is `InBufCS`, the rendered `OutBufCS` comes
out strictly smaller, so the driver schedules a SetConfig
(`changed = true`). -/
theorem C10_interval_clamp (c : ConfigValues) (buf : Nat → Nat)
    (hint : HI_05MIN < c.HistoryInterval)
    (hbuf7 : buf 7 = c.HistoryInterval)
    (hrest : ∀ i, 5 ≤ i → i < 122 → i ≠ 7 →
      (testConfigChanged c).2.1 i = buf i)
    (hcs : c.InBufCS = calc_checksum buf 5 122 + 7) :
    (testConfigChanged c).2.1 7 = HI_05MIN ∧
    (testConfigChanged c).2.2.HistoryInterval = HI_05MIN ∧
    (testConfigChanged c).2.2.OutBufCS < c.InBufCS ∧
    (testConfigChanged c).1 = true := by
  have h7 : (testConfigChanged c).2.1 7 = HI_05MIN := by
    rw [testConfigChanged_buf_7, clampInterval_HistoryInterval_of_gt hint]
  have hHI : (testConfigChanged c).2.2.HistoryInterval = HI_05MIN := by
    rw [testConfigChanged_snd_HistoryInterval,
      clampInterval_HistoryInterval_of_gt hint]
  have hlt : (testConfigChanged c).2.2.OutBufCS < c.InBufCS := by
    rw [testConfigChanged_snd_OutBufCS, hcs]
    have hrender7 : renderConfig (clampInterval c) 7 = HI_05MIN := by
      rw [renderConfig_apply_7, clampInterval_HistoryInterval_of_gt hint]
    have h1 : calc_checksum (renderConfig (clampInterval c)) 5 122 =
        (∑ j in (Finset.Ico 5 122).erase 7, buf j) + HI_05MIN := by
      rw [@calc_checksum_congr_off buf _ 7 (by norm_num) (by norm_num)
        (fun j hj5 hj122 hne => by
          rw [← testConfigChanged_buf_lt123 c (by omega : j < 123),
            hrest j hj5 hj122 hne]), hrender7]
    have h2 : calc_checksum buf 5 122 =
        (∑ j in (Finset.Ico 5 122).erase 7, buf j) + buf 7 :=
      calc_checksum_erase buf (by norm_num) (by norm_num)
    rw [h1, h2]
    omega
  refine ⟨h7, hHI, hlt, ?_⟩
  rw [testConfigChanged_fst]
  simp only [ne_eq, decide_eq_true_eq]
  omega

/-- A console configuration whose reported history interval is the
15-minute code (3) but is otherwise all zeros, and whose `InBufCS` matches
the console frame built below. -/
def C10cfg : ConfigValues :=
  { ConfigValues.init with
    HistoryInterval := 3
    InBufCS := 10
    TempMax := fun _ => -400
    TempMin := fun _ => -400
    HumidityMax := fun _ => 0
    HumidityMin := fun _ => 0 }

/-- The console frame corresponding to `C10cfg`: the rendered buffer with
byte 7 restored to the console's interval code 3. -/
def C10buf : Nat → Nat := upd ((testConfigChanged C10cfg).2.1) 7 3

set_option maxRecDepth 100000 in
/-- C10 witness: the clamp theorem applied to `C10cfg` and `C10buf`. -/
theorem C10_interval_clamp_witness :
    HI_05MIN < C10cfg.HistoryInterval ∧
    C10buf 7 = C10cfg.HistoryInterval ∧
    C10cfg.InBufCS = calc_checksum C10buf 5 122 + 7 ∧
    ((testConfigChanged C10cfg).2.1 7 = HI_05MIN ∧
     (testConfigChanged C10cfg).2.2.HistoryInterval = HI_05MIN ∧
     (testConfigChanged C10cfg).2.2.OutBufCS < C10cfg.InBufCS ∧
     (testConfigChanged C10cfg).1 = true) :=
  ⟨by decide, by decide, by decide,
    C10_interval_clamp C10cfg C10buf (by decide) (by decide)
      (fun i _ _ hne => (upd_apply_ne hne).symm) (by decide)⟩

/-- C8 witness: the amended range theorem applied at the concrete nibbles
`1 2 3`, which decode to −27.7 °C. -/
theorem C8_temperature_range_witness :
    0 + 1 < ([0x12, 0x30] : List Nat).length ∧
    (toTemperature_3_1 [0x12, 0x30] 0 true = temperature_NP ∨
     toTemperature_3_1 [0x12, 0x30] 0 true = temperature_OFL ∨
     (-400 ≤ toTemperature_3_1 [0x12, 0x30] 0 true ∧
       toTemperature_3_1 [0x12, 0x30] 0 true < 960)) :=
  ⟨by decide, C8_temperature_range [0x12, 0x30] 0 true (by decide)⟩

/-- The engine mid history catch-up with the last weather frame exactly
`2·(comm_interval+1)` seconds old at time 1000. -/
def engineC4 : EngineState :=
  { engineState0 with command := some ACTION_GET_HISTORY, lastWeatherTs := 982 }

/-- C4 counterexample: at `age = 2·(comm_interval+1)` exactly — so not yet
"older than" the threshold — the source still morphs the outgoing
`GetHistory` into `GetCurrent` (`age >= (comInt+1)*2` in the code), where
the claim requires the action to be emitted unchanged. -/
theorem C4_counterexample :
    (1000 : Int) - engineC4.lastWeatherTs =
      2 * ((engineC4.commModeInterval : Int) + 1) ∧
    engineC4.command = some ACTION_GET_HISTORY ∧
    listBuf [0x12, 0x34] 1 ≠ 0xF0 ∧
    (buildACKFrame engineC4 1000 [0x12, 0x34] ACTION_GET_HISTORY 0xABCD
        none).getD 3 0 = ACTION_GET_CURRENT ∧
    ACTION_GET_CURRENT ≠ ACTION_GET_HISTORY := by decide

/-- C4 (amended): with the engine's current command `GetHistory` and an
outgoing `GetHistory` action, the emitted ACK's action byte is rewritten to
`GetCurrent` exactly when the last current-weather timestamp is at least
`2·(comm_interval+1)` seconds old (the boundary counts as stale) and the
inbound frame is not the wildcard pairing frame; otherwise the `GetHistory`
action is emitted unchanged. -/
theorem C4_morph_boundary (s : EngineState) (now : Int) (buf : List Nat)
    (action cs : Nat) (hidx : Option Int)
    (hcmd : s.command = some ACTION_GET_HISTORY)
    (hact : action = ACTION_GET_HISTORY) :
    ((2 * ((s.commModeInterval : Int) + 1) ≤ now - s.lastWeatherTs ∧
        listBuf buf 1 ≠ 0xF0) →
      (buildACKFrame s now buf action cs hidx).getD 3 0 =
        ACTION_GET_CURRENT) ∧
    (¬(2 * ((s.commModeInterval : Int) + 1) ≤ now - s.lastWeatherTs ∧
        listBuf buf 1 ≠ 0xF0) →
      (buildACKFrame s now buf action cs hidx).getD 3 0 =
        ACTION_GET_HISTORY) := by
  subst hact
  rw [buildACKFrame_action, if_pos hcmd]
  constructor
  · rintro ⟨hage, hwild⟩
    rw [if_pos ⟨rfl, by omega, hwild⟩]
    decide
  · intro hnot
    rw [if_neg ?hn]
    · decide
    case hn =>
      rintro ⟨-, hage, hwild⟩
      exact hnot ⟨by omega, hwild⟩

/-- C4 witness: the morph dichotomy applied at `engineC4`, time 1000 and a
non-wildcard frame. -/
theorem C4_morph_boundary_witness :
    engineC4.command = some ACTION_GET_HISTORY ∧
    (((2 * ((engineC4.commModeInterval : Int) + 1) ≤
          1000 - engineC4.lastWeatherTs ∧
        listBuf [0x12, 0x34] 1 ≠ 0xF0) →
      (buildACKFrame engineC4 1000 [0x12, 0x34] ACTION_GET_HISTORY 0xABCD
          none).getD 3 0 = ACTION_GET_CURRENT) ∧
    (¬(2 * ((engineC4.commModeInterval : Int) + 1) ≤
          1000 - engineC4.lastWeatherTs ∧
        listBuf [0x12, 0x34] 1 ≠ 0xF0) →
      (buildACKFrame engineC4 1000 [0x12, 0x34] ACTION_GET_HISTORY 0xABCD
          none).getD 3 0 = ACTION_GET_HISTORY)) :=
  ⟨rfl, C4_morph_boundary engineC4 1000 [0x12, 0x34] ACTION_GET_HISTORY
    0xABCD none rfl rfl⟩

/-- An ACK whose action is not `GetHistory` is never morphed: its bytes are
the plain template. -/
theorem buildACKFrame_morphFree (s : EngineState) (now : Int)
    (buf : List Nat) (action cs : Nat) (hidx : Option Int)
    (hne : action ≠ ACTION_GET_HISTORY) :
    buildACKFrame s now buf action cs hidx =
      [listBuf buf 0, listBuf buf 1, LOGGER_1, action &&& 0xF,
       (cs >>> 8) &&& 0xFF, cs &&& 0xFF, 0x80, s.commModeInterval &&& 0xFF,
       (ackHistoryAddr s hidx >>> 16) &&& 0xFF,
       (ackHistoryAddr s hidx >>> 8) &&& 0xFF,
       ackHistoryAddr s hidx &&& 0xFF] := by
  simp only [buildACKFrame]
  have ha : (if s.command = some ACTION_GET_HISTORY then
      if action = ACTION_GET_HISTORY ∧
          ((s.commModeInterval : Int) + 1) * 2 ≤ now - s.lastWeatherTs ∧
          listBuf buf 1 ≠ 0xF0 then
        ACTION_GET_CURRENT
      else action
    else action) = action := by
    split
    · exact if_neg (fun hc => hne hc.1)
    · rfl
  rw [ha]

/-- Index 3 of a cons-literal list. -/
theorem getD3 (a b c d : Nat) (rest : List Nat) :
    (a :: b :: c :: d :: rest).getD 3 0 = d := rfl

/-- A clock reading and an all-alarm position decoding, used by concrete
frame evaluations. -/
def tm0 : Tm := ⟨0, 0, 0, 1, 1, 2015, 0⟩

def pos0 : Nat → HistPos := fun _ => ⟨1, none⟩

/-- An unpaired-broadcast frame header (DeviceID `0xF0F0`). -/
def C7buf : List Nat := [0xF0, 0xF0, 0, 0x30, 0, 0, 0]

/-- The frame the engine answers to `C7buf`. -/
def C7out : List Nat :=
  match generateResponse engineState0 1000 tm0 229 C7buf pos0 with
  | some (.frame _ out) => out
  | _ => []

/-- C7 counterexample: for a frame with DeviceID `0xF0F0` the reply's
DeviceID bytes (template bytes 0–1) still read `0xF0 0xF0`; the
transceiver's own DeviceID 0x1234 is carried in the checksum field (bytes
4–5) instead, so the claim's "DeviceID bytes equal the transceiver's own
DeviceID" fails. -/
theorem C7_counterexample :
    C7out = [0xF0, 0xF0, 0, 3, 0x12, 0x34, 0x80, 8, 0xFF, 0xFF, 0xFF] ∧
    engineState0.deviceId = 0x1234 ∧
    ¬(C7out.getD 0 0 = (engineState0.deviceId >>> 8) &&& 0xFF ∧
      C7out.getD 1 0 = engineState0.deviceId &&& 0xFF) ∧
    C7out.getD 4 0 = (engineState0.deviceId >>> 8) &&& 0xFF ∧
    C7out.getD 5 0 = engineState0.deviceId &&& 0xFF := by decide

/-- C7 (amended): every inbound frame whose DeviceID field reads `0xF0F0`
is answered with an 11-byte ACK whose action byte is `0x03` (GetConfig),
whose first two bytes echo `0xF0 0xF0`, whose checksum-field bytes 4–5
carry the transceiver's own DeviceID, and whose three history-address
bytes are `0xFF 0xFF 0xFF`; the engine state is left unchanged. -/
theorem C7_pairing_ack (s : EngineState) (now : Int) (tm : Tm)
    (length : Nat) (buf : List Nat) (pos : Nat → HistPos)
    (hlen : length ≠ 0) (h0 : listBuf buf 0 = 0xF0)
    (h1 : listBuf buf 1 = 0xF0) :
    generateResponse s now tm length buf pos = some (.frame s
      [0xF0, 0xF0, LOGGER_1, ACTION_GET_CONFIG,
       (s.deviceId >>> 8) &&& 0xFF, s.deviceId &&& 0xFF, 0x80,
       s.commModeInterval &&& 0xFF, 0xFF, 0xFF, 0xFF]) := by
  unfold generateResponse
  rw [if_neg hlen, h0, h1]
  rw [if_pos (by decide : ((0xF0 : Nat) <<< 8 ||| 0xF0) = 0xF0F0)]
  rw [buildACKFrame_morphFree s now buf ACTION_GET_CONFIG s.deviceId
    (some 0xFFFF) (by decide)]
  rw [h0, h1]
  have haddr : ackHistoryAddr s (some (0xFFFF : Int)) = 0xffffff := rfl
  rw [haddr]
  rw [(by decide : ACTION_GET_CONFIG &&& 0xF = ACTION_GET_CONFIG),
    (by decide : ((0xffffff : Nat) >>> 16) &&& 0xFF = 0xFF),
    (by decide : ((0xffffff : Nat) >>> 8) &&& 0xFF = 0xFF),
    (by decide : (0xffffff : Nat) &&& 0xFF = 0xFF)]

/-- C7 witness: the pairing-ACK theorem applied at `C7buf`. -/
theorem C7_pairing_ack_witness :
    (229 : Nat) ≠ 0 ∧ listBuf C7buf 0 = 0xF0 ∧ listBuf C7buf 1 = 0xF0 ∧
    generateResponse engineState0 1000 tm0 229 C7buf pos0 =
      some (.frame engineState0
        [0xF0, 0xF0, LOGGER_1, ACTION_GET_CONFIG,
         (engineState0.deviceId >>> 8) &&& 0xFF,
         engineState0.deviceId &&& 0xFF, 0x80,
         engineState0.commModeInterval &&& 0xFF, 0xFF, 0xFF, 0xFF]) :=
  ⟨by decide, by decide, by decide,
    C7_pairing_ack engineState0 1000 tm0 229 C7buf pos0 (by decide)
      (by decide) (by decide)⟩

/-- C1: on every current-weather frame the emitted ACK requests GetConfig
(0x03) when no valid `InBufCS` is known yet (`InBufCS = 0`) or the
checksum carried in the frame differs from `InBufCS`; otherwise SetConfig
(0x02) when the freshly rendered outgoing checksum `OutBufCS` differs from
`InBufCS`; otherwise GetHistory (0x00).  `cfg1` is the configuration after
the sensor-text presetter ran (which leaves `InBufCS` untouched); since the
handler has just refreshed `last_weather_ts`, the GetHistory action cannot
be morphed away. -/
theorem C1_current_request_selection (s : EngineState) (now : Int)
    (buf : List Nat) (cfg1 : ConfigValues)
    (hsst : setSensorText s.cfg s.sensorTexts = some cfg1) :
    ∃ s2 ack, handleCurrentData s now buf = some (s2, ack) ∧
      ack.getD 3 0 =
        (if cfg1.InBufCS = 0 ∨
            cfg1.InBufCS ≠ (listBuf buf 6 ||| (listBuf buf 5 <<< 8)) then
          ACTION_GET_CONFIG
        else if (testConfigChanged cfg1).2.2.OutBufCS ≠ cfg1.InBufCS then
          ACTION_REQ_SET_CONFIG
        else ACTION_GET_HISTORY) := by
  unfold handleCurrentData
  dsimp only
  rw [hsst]
  dsimp only
  by_cases h1 : (testConfigChanged cfg1).2.2.InBufCS = 0 ∨
      (testConfigChanged cfg1).2.2.InBufCS ≠
        (listBuf buf 6 ||| (listBuf buf 5 <<< 8))
  · rw [if_pos h1]
    rw [testConfigChanged_snd_InBufCS] at h1
    refine ⟨_, _, rfl, ?_⟩
    rw [if_pos h1, buildACKFrame_morphFree _ _ _ _ _ _
      (by decide : ACTION_GET_CONFIG ≠ ACTION_GET_HISTORY), getD3]
    decide
  · rw [if_neg h1]
    rw [testConfigChanged_snd_InBufCS] at h1
    by_cases h2 : (testConfigChanged cfg1).1 = true
    · rw [if_pos h2]
      rw [testConfigChanged_fst, decide_eq_true_eq] at h2
      refine ⟨_, _, rfl, ?_⟩
      rw [if_neg h1, if_pos h2, buildACKFrame_morphFree _ _ _ _ _ _
        (by decide : ACTION_REQ_SET_CONFIG ≠ ACTION_GET_HISTORY), getD3]
      decide
    · rw [if_neg h2]
      rw [testConfigChanged_fst, decide_eq_true_eq, not_not] at h2
      refine ⟨_, _, rfl, ?_⟩
      rw [if_neg h1,
        if_neg (show ¬((testConfigChanged cfg1).2.2.OutBufCS ≠ cfg1.InBufCS)
          from not_not_intro h2)]
      rw [buildACKFrame_action]
      dsimp only
      have hstale : ¬(ACTION_GET_HISTORY = ACTION_GET_HISTORY ∧
          ((s.commModeInterval : Int) + 1) * 2 ≤ now - now ∧
          listBuf buf 1 ≠ 0xF0) := by
        rintro ⟨-, hage, -⟩
        omega
      by_cases hcmd2 : s.command = some ACTION_GET_HISTORY
      · rw [if_pos hcmd2, if_neg hstale]
        decide
      · rw [if_neg hcmd2]
        decide

/-- C1 witness: the request-selection theorem at the initial state (no
config received yet, `InBufCS = 0`), which requests GetConfig. -/
theorem C1_current_request_selection_witness :
    setSensorText engineState0.cfg engineState0.sensorTexts =
      some ConfigValues.init ∧
    (∃ s2 ack, handleCurrentData engineState0 1000 C7buf = some (s2, ack) ∧
      ack.getD 3 0 =
        (if ConfigValues.init.InBufCS = 0 ∨
            ConfigValues.init.InBufCS ≠
              (listBuf C7buf 6 ||| (listBuf C7buf 5 <<< 8)) then
          ACTION_GET_CONFIG
        else if (testConfigChanged ConfigValues.init).2.2.OutBufCS ≠
            ConfigValues.init.InBufCS then
          ACTION_REQ_SET_CONFIG
        else ACTION_GET_HISTORY)) :=
  ⟨rfl, C1_current_request_selection engineState0 1000 C7buf
    ConfigValues.init rfl⟩

/-- A station config after the first successful config decode
(`InBufCS ≠ 0`), with the presetter not yet run and every slot decoding as
a present sensor with an empty description text. -/
def C9cfg : ConfigValues := { ConfigValues.init with InBufCS := 10 }

/-- Host options: `sensor_text1 = "GARAGE"` (valid) and
`sensor_text2 = "ABCDEFGHIJK"` (11 characters, over the 10-character
limit). -/
def C9texts : Nat → Option String := fun x =>
  if x = 1 then some "GARAGE"
  else if x = 2 then some "ABCDEFGHIJK" else none

/-- Host options with only the over-long `sensor_text1 = "ABCDEFGHIJK"`. -/
def C9textsAlone : Nat → Option String := fun x =>
  if x = 1 then some "ABCDEFGHIJK" else none

/-- The presetter's result on `C9texts`. -/
def C9res : Option ConfigValues := setSensorText C9cfg C9texts

/-- C9 evaluation at the failing input: the 11-character
`sensor_text2 = "ABCDEFGHIJK"` is only logged, not rejected — the store
path still runs, records "ABCDEFGHIJK" as slot 2's `SensorText` and packs
the stale `padded_sensor_text` left over from slot 1 ("GARAGE") into slot
2's `Description`; with no earlier valid slot the same input instead
raises a `NameError` (an unbound `padded_sensor_text`), crashing the
handler.  In both cases the slot is not left unchanged, although the text
is over-long and the slot decodes as a present sensor. -/
theorem C9_overlong_text_not_rejected :
    10 < ("ABCDEFGHIJK" : String).length ∧
    C9cfg.SensorText 2 ≠ "(No sensor)" ∧
    C9res.isSome = true ∧
    (match C9res with
     | some c2 => c2.SensorText 2
     | none => "") = "ABCDEFGHIJK" ∧
    (match C9res with
     | some c2 => c2.Description 2
     | none => []) = packDescription (ljustChars "GARAGE".data 10 '!') ∧
    (match C9res with
     | some c2 => c2.Description 2
     | none => []) ≠ C9cfg.Description 2 ∧
    (match C9res with
     | some c2 => decide (c2.Description 2 = c2.Description 1)
     | none => false) = true ∧
    (setSensorText C9cfg C9textsAlone).isNone = true := by
  refine ⟨by decide, by decide, ?_, ?_, ?_, ?_, ?_, ?_⟩ <;> decide

/-- One acceptance-loop step either leaves the record list and
`ts_last_rec` alone, or appends a single timestamp that passes every
filter: at or above the 2010-07-01 floor, at or above `since_ts`, at most
300 s into the future, and strictly above the previous `ts_last_rec`. -/
theorem histRecordStep_cases (sinceTs now : Int) (st : HistLoopSt)
    (p : HistPos) :
    ((histRecordStep sinceTs now st p).records = st.records ∧
      (histRecordStep sinceTs now st p).tsLast = st.tsLast) ∨
    (∃ t, (histRecordStep sinceTs now st p).records = st.records ++ [t] ∧
      (histRecordStep sinceTs now st p).tsLast = t ∧
      TS_2010_07 ≤ t ∧ sinceTs ≤ t ∧ t ≤ now + 300 ∧ st.tsLast < t) := by
  unfold histRecordStep
  by_cases ha : p.alarm = 0
  · rw [if_pos ha]
    cases hts : p.ts with
    | none => exact Or.inl ⟨rfl, rfl⟩
    | some t =>
      dsimp only
      by_cases h1 : TS_2010_07 ≤ t ∧ sinceTs ≤ t
      · rw [if_pos h1]
        by_cases h2 : now + 300 < t
        · rw [if_pos h2]; exact Or.inl ⟨rfl, rfl⟩
        · rw [if_neg h2]
          by_cases h3 : t = st.tsLast
          · rw [if_pos h3]; exact Or.inl ⟨rfl, rfl⟩
          · rw [if_neg h3]
            by_cases h4 : t < st.tsLast
            · rw [if_pos h4]; exact Or.inl ⟨rfl, rfl⟩
            · rw [if_neg h4]
              by_cases h5 : st.tsLast ≠ 0 ∧ st.tsLast + 86400 < t
              · rw [if_pos h5]; exact Or.inl ⟨rfl, rfl⟩
              · rw [if_neg h5]
                exact Or.inr ⟨t, rfl, rfl, h1.1, h1.2, by omega, by omega⟩
      · rw [if_neg h1]; exact Or.inl ⟨rfl, rfl⟩
  · rw [if_neg ha]; exact Or.inl ⟨rfl, rfl⟩

/-- Invariant of the acceptance loop: starting from a strictly increasing
record list bounded by `ts_last_rec`, the loop appends a (possibly empty)
batch of filtered timestamps, keeps the whole list strictly increasing and
keeps every record at or below the final `ts_last_rec`. -/
theorem histLoop_spec (sinceTs now : Int) (ps : List HistPos)
    (st : HistLoopSt) (hchain : List.Chain' (· < ·) st.records)
    (hle : ∀ r ∈ st.records, r ≤ st.tsLast) :
    ∃ new, (histLoop sinceTs now st ps).records = st.records ++ new ∧
      (∀ r ∈ new, TS_2010_07 ≤ r ∧ sinceTs ≤ r ∧ r ≤ now + 300 ∧
        st.tsLast < r) ∧
      List.Chain' (· < ·) (histLoop sinceTs now st ps).records ∧
      (∀ r ∈ (histLoop sinceTs now st ps).records,
        r ≤ (histLoop sinceTs now st ps).tsLast) ∧
      st.tsLast ≤ (histLoop sinceTs now st ps).tsLast := by
  induction ps generalizing st with
  | nil =>
    exact ⟨[], by simp [histLoop], by simp, hchain, hle, le_refl _⟩
  | cons p t ih =>
    have hshape : histLoop sinceTs now st (p :: t) =
        histLoop sinceTs now (histRecordStep sinceTs now st p) t := rfl
    rw [hshape]
    rcases histRecordStep_cases sinceTs now st p with
      ⟨hrec, hts⟩ | ⟨a, hrec, hts, hfloor, hsince, hfut, hgt⟩
    · obtain ⟨new, e1, e2, e3, e4, e5⟩ :=
        ih (histRecordStep sinceTs now st p)
          (by rw [hrec]; exact hchain)
          (by rw [hrec, hts]; exact hle)
      refine ⟨new, by rw [e1, hrec], ?_, e3, e4, by rw [← hts]; exact e5⟩
      intro r hr
      have h := e2 r hr
      rw [hts] at h
      exact h
    · have hch2 : List.Chain' (· < ·) (st.records ++ [a]) := by
        rw [List.chain'_append]
        refine ⟨hchain, List.chain'_singleton a, ?_⟩
        intro x hx y hy
        have hxl : x ∈ st.records := List.mem_of_mem_getLast? hx
        have hy' : y = a := by
          cases hy
          rfl
        subst hy'
        exact lt_of_le_of_lt (hle x hxl) hgt
      have hle2 : ∀ r ∈ st.records ++ [a], r ≤ a := by
        intro r hr
        rcases List.mem_append.mp hr with h | h
        · exact le_of_lt (lt_of_le_of_lt (hle r h) hgt)
        · rw [List.mem_singleton.mp h]
      obtain ⟨new, e1, e2, e3, e4, e5⟩ :=
        ih (histRecordStep sinceTs now st p)
          (by rw [hrec]; exact hch2)
          (by rw [hrec, hts]; exact hle2)
      refine ⟨a :: new, ?_, ?_, e3, e4, ?_⟩
      · rw [e1, hrec, List.append_assoc]
        rfl
      · intro r hr
        rcases List.mem_cons.mp hr with h | h
        · subst h
          exact ⟨hfloor, hsince, hfut, hgt⟩
        · have hp := e2 r h
          rw [hts] at hp
          exact ⟨hp.1, hp.2.1, hp.2.2.1, by omega⟩
      · rw [hts] at e5
        omega

theorem histFinish_records (s : EngineState) (now : Int) (buf : List Nat)
    (cs : Nat) (nrec : Int) (ni : Option Int) :
    (histFinish s now buf cs nrec ni).1.cache.records = s.cache.records := rfl

theorem histFinish_next_index (s : EngineState) (now : Int) (buf : List Nat)
    (cs : Nat) (nrec : Int) (ni : Option Int) :
    (histFinish s now buf cs nrec ni).1.cache.next_index =
      s.cache.next_index := rfl

theorem histFinish_start_index (s : EngineState) (now : Int) (buf : List Nat)
    (cs : Nat) (nrec : Int) (ni : Option Int) :
    (histFinish s now buf cs nrec ni).1.cache.start_index =
      s.cache.start_index := rfl

theorem histFinish_num_outstanding (s : EngineState) (now : Int)
    (buf : List Nat) (cs : Nat) (nrec : Int) (ni : Option Int) :
    (histFinish s now buf cs nrec ni).1.cache.num_outstanding_records =
      some nrec := rfl

theorem dcfAlarmCfg_HistoryInterval (c : ConfigValues) (pos : Nat → HistPos)
    (now : Int) : (dcfAlarmCfg c pos now).HistoryInterval =
      c.HistoryInterval := by
  unfold dcfAlarmCfg
  dsimp only
  repeat' split
  all_goals rfl

/-- The `thisIndexOk` validation admits exactly an advance of 1..6 modulo
`max_records`. -/
theorem thisIndexOkCheck_advance {req ti : Int} (hreq0 : 0 ≤ req)
    (hreq1 : req < max_records) (hti0 : 0 ≤ ti) (hti1 : ti < max_records)
    (hok : thisIndexOkCheck req ti = true) :
    1 ≤ get_index (ti - req) ∧ get_index (ti - req) ≤ 6 := by
  unfold thisIndexOkCheck at hok
  unfold max_records at *
  unfold get_index max_records
  by_cases hA : req + 6 < 51200
  · rw [if_pos hA] at hok
    have h := of_decide_eq_true hok
    split <;> [omega; (split <;> omega)]
  · rw [if_neg hA] at hok
    by_cases hB : req = 51200 - 1
    · rw [if_pos hB] at hok
      have h := of_decide_eq_true hok
      split <;> [omega; (split <;> omega)]
    · rw [if_neg hB] at hok
      have h := of_decide_eq_true hok
      split <;> [omega; (split <;> omega)]

/-- On a validated mid-catch-up frame (`start_index` planted, `next_index`
known, `thisIndexOk`), the catch-up step runs the acceptance loop and
plants `next_index := thisIndex`. -/
theorem histCatchupStep_ok (s : EngineState) (now li ti nrec : Int)
    (pos : Nat → HistPos) (i0 req : Int)
    (hstart : s.cache.start_index = some i0)
    (hnext : s.cache.next_index = some req)
    (hok : thisIndexOkCheck req ti = true) :
    histCatchupStep s now li ti nrec pos =
      some ({ s with
        cache := { s.cache with
          records := (histLoop s.cache.since_ts now
            ⟨s.cache.records, s.recordsAppended, s.recordsSkipped,
              s.tsLastRec⟩
            [pos 1, pos 2, pos 3, pos 4, pos 5, pos 6]).records
          next_index := some ti }
        recordsAppended := (histLoop s.cache.since_ts now
          ⟨s.cache.records, s.recordsAppended, s.recordsSkipped,
            s.tsLastRec⟩ [pos 1, pos 2, pos 3, pos 4, pos 5, pos 6]).appended
        recordsSkipped := (histLoop s.cache.since_ts now
          ⟨s.cache.records, s.recordsAppended, s.recordsSkipped,
            s.tsLastRec⟩ [pos 1, pos 2, pos 3, pos 4, pos 5, pos 6]).skipped
        tsLastRec := (histLoop s.cache.since_ts now
          ⟨s.cache.records, s.recordsAppended, s.recordsSkipped,
            s.tsLastRec⟩ [pos 1, pos 2, pos 3, pos 4, pos 5, pos 6]).tsLast },
        nrec, some ti) := by
  unfold histCatchupStep
  rw [hstart]
  dsimp only
  rw [hnext]
  dsimp only
  rw [if_pos hok]

/-- Whatever branch the catch-up step takes, the record cache only grows
by timestamps that pass every filter, and stays strictly increasing. -/
theorem histCatchupStep_records (s : EngineState) (now li ti nrec : Int)
    (pos : Nat → HistPos) (r : EngineState × Int × Option Int)
    (hrun : histCatchupStep s now li ti nrec pos = some r)
    (hchain : List.Chain' (· < ·) s.cache.records)
    (hle : ∀ x ∈ s.cache.records, x ≤ s.tsLastRec) :
    ∃ new, r.1.cache.records = s.cache.records ++ new ∧
      (∀ x ∈ new, TS_2010_07 ≤ x ∧ s.cache.since_ts ≤ x ∧ x ≤ now + 300 ∧
        s.tsLastRec < x) ∧
      List.Chain' (· < ·) r.1.cache.records := by
  unfold histCatchupStep at hrun
  cases hs : s.cache.start_index with
  | none =>
    rw [hs] at hrun
    dsimp only at hrun
    split at hrun
    · exact absurd hrun (by simp)
    · injection hrun with h
      refine ⟨[], ?_, by simp, ?_⟩
      · rw [← h, List.append_nil]
      · rw [← h]
        exact hchain
  | some i0 =>
    rw [hs] at hrun
    dsimp only at hrun
    cases hn : s.cache.next_index with
    | none =>
      rw [hn] at hrun
      dsimp only at hrun
      injection hrun with h
      refine ⟨[], ?_, by simp, ?_⟩
      · rw [← h, List.append_nil]
      · rw [← h]
        exact hchain
    | some req =>
      rw [hn] at hrun
      dsimp only at hrun
      by_cases hok : thisIndexOkCheck req ti = true
      · rw [if_pos hok] at hrun
        injection hrun with h
        obtain ⟨new, e1, e2, e3, e4, e5⟩ := histLoop_spec s.cache.since_ts
          now [pos 1, pos 2, pos 3, pos 4, pos 5, pos 6]
          ⟨s.cache.records, s.recordsAppended, s.recordsSkipped, s.tsLastRec⟩
          hchain hle
        exact ⟨new, by rw [← h]; exact e1, e2, by rw [← h]; exact e3⟩
      · rw [if_neg hok] at hrun
        injection hrun with h
        refine ⟨[], ?_, by simp, ?_⟩
        · rw [← h, List.append_nil]
        · rw [← h]
          exact hchain

/-- C2 (amended): on a validated history frame mid catch-up the cursor's
next-expected index is set to the frame's index — an advance of between 1
and 6 modulo `max_records` — regardless of how many records of the frame
were actually accepted (that count can be 0..6, see the counterexample). -/
theorem C2_cursor_advance (s : EngineState) (now : Int) (buf : List Nat)
    (pos : Nat → HistPos) (i0 req : Int)
    (hcmd : s.command = some ACTION_GET_HISTORY)
    (hstart : s.cache.start_index = some i0)
    (hnext : s.cache.next_index = some req)
    (hreq0 : 0 ≤ req) (hreq1 : req < max_records)
    (hti0 : 0 ≤ frameThisIndex buf)
    (hti1 : frameThisIndex buf < max_records)
    (hok : thisIndexOkCheck req (frameThisIndex buf) = true) :
    ∃ s2 out, handleHistoryData s now buf pos = some (s2, out) ∧
      s2.cache.next_index = some (frameThisIndex buf) ∧
      1 ≤ get_index (frameThisIndex buf - req) ∧
      get_index (frameThisIndex buf - req) ≤ 6 := by
  have harith := thisIndexOkCheck_advance hreq0 hreq1 hti0 hti1 hok
  unfold handleHistoryData
  dsimp only
  rw [if_pos hcmd]
  unfold histCatchupStep
  dsimp only
  rw [hstart]
  dsimp only
  rw [hnext]
  dsimp only
  rw [if_pos hok]
  dsimp only
  exact ⟨_, _, rfl, rfl, harith.1, harith.2⟩

/-- The engine mid catch-up expecting index 11..16 next. -/
def C2s : EngineState := { engineState0 with
  command := some ACTION_GET_HISTORY
  cache := { HistoryCacheSt.clear with
    start_index := some 5
    next_index := some 10 } }

/-- A history frame carrying `thisIndex = 13`, `latestIndex = 100`, with
all six positions alarm records. -/
def C2buf : List Nat :=
  [0x12, 0x34, 0, 0x40, 0, 0, 0, 0x07, 0x0C, 0x80, 0x07, 0x01, 0xA0]

/-- The state after `C2s` handles `C2buf`. -/
def C2run : EngineState × List Nat :=
  (handleHistoryData C2s 1600000000 C2buf pos0).getD (engineState0, [])

/-- C2 counterexample: a validated frame whose six positions are all alarm
records is fully skipped — zero records accepted — yet the next-expected
index still advances from 10 to 13, so the advance (3) is not "exactly the
number of records actually accepted" and that count is not in 1..6. -/
theorem C2_counterexample :
    thisIndexOkCheck 10 (frameThisIndex C2buf) = true ∧
    C2s.cache.next_index = some 10 ∧
    C2run.1.cache.next_index = some 13 ∧
    C2run.1.cache.records = [] ∧
    C2run.1.recordsAppended = 0 ∧
    get_index (13 - 10) = 3 ∧ ((3 : Int) ≠ 0) := by decide

/-- C2 witness: the cursor-advance theorem applied to `C2s` and `C2buf`. -/
theorem C2_cursor_advance_witness :
    C2s.command = some ACTION_GET_HISTORY ∧
    C2s.cache.start_index = some 5 ∧
    C2s.cache.next_index = some 10 ∧
    (0 ≤ (10 : Int) ∧ (10 : Int) < max_records ∧
      0 ≤ frameThisIndex C2buf ∧ frameThisIndex C2buf < max_records) ∧
    (∃ s2 out,
      handleHistoryData C2s 1600000000 C2buf pos0 = some (s2, out) ∧
      s2.cache.next_index = some (frameThisIndex C2buf) ∧
      1 ≤ get_index (frameThisIndex C2buf - 10) ∧
      get_index (frameThisIndex C2buf - 10) ≤ 6) :=
  ⟨rfl, rfl, rfl, ⟨by decide, by decide, by decide, by decide⟩,
    C2_cursor_advance C2s 1600000000 C2buf pos0 5 10 rfl rfl rfl
      (by decide) (by decide) (by decide) (by decide) (by decide)⟩

/-- C5: every record the history handler appends to the cache has a
timestamp at or above the 2010-07-01 floor, at or above `since_ts`, at
most 300 s beyond the current time, and strictly above the previous
accepted record's timestamp; given a strictly increasing cache whose
entries are bounded by `ts_last_rec`, the cache stays strictly increasing. -/
theorem C5_history_filter (s : EngineState) (now : Int) (buf : List Nat)
    (pos : Nat → HistPos) (s2 : EngineState) (out : List Nat)
    (hrun : handleHistoryData s now buf pos = some (s2, out))
    (hchain : List.Chain' (· < ·) s.cache.records)
    (hle : ∀ r ∈ s.cache.records, r ≤ s.tsLastRec) :
    ∃ new, s2.cache.records = s.cache.records ++ new ∧
      (∀ r ∈ new, TS_2010_07 ≤ r ∧ s.cache.since_ts ≤ r ∧ r ≤ now + 300 ∧
        s.tsLastRec < r) ∧
      List.Chain' (· < ·) s2.cache.records := by
  unfold handleHistoryData at hrun
  dsimp only at hrun
  by_cases hcmd : s.command = some ACTION_GET_HISTORY
  · rw [if_pos hcmd] at hrun
    split at hrun
    · exact absurd hrun (by simp)
    next r heq =>
      injection hrun with h
      rw [Prod.ext_iff] at h
      obtain ⟨h1, -⟩ := h
      dsimp only at h1
      rw [← h1, histFinish_records]
      obtain ⟨new, e1, e2, e3⟩ :=
        histCatchupStep_records _ _ _ _ _ _ r heq hchain hle
      exact ⟨new, e1, e2, e3⟩
  · rw [if_neg hcmd] at hrun
    injection hrun with h
    rw [Prod.ext_iff] at h
    obtain ⟨h1, -⟩ := h
    dsimp only at h1
    refine ⟨[], ?_, by simp, ?_⟩
    · rw [← h1, List.append_nil]
    · rw [← h1]
      exact hchain

/-- Decoded positions for the C5 witness frame: two history records at
16:05 and 16:10 past epoch 1.4e9, the rest alarm records. -/
def C5pos : Nat → HistPos := fun x =>
  if x = 1 then ⟨0, some 1400000300⟩
  else if x = 2 then ⟨0, some 1400000600⟩
  else ⟨1, none⟩

/-- The state after `C2s` handles `C2buf` with the `C5pos` decodings. -/
def C5run : EngineState × List Nat :=
  (handleHistoryData C2s 1400000600 C2buf C5pos).getD (engineState0, [])

/-- C5 witness: the filtering theorem applied to a frame that appends two
records. -/
theorem C5_history_filter_witness :
    handleHistoryData C2s 1400000600 C2buf C5pos =
      some (C5run.1, C5run.2) ∧
    List.Chain' (· < ·) C2s.cache.records ∧
    (∀ r ∈ C2s.cache.records, r ≤ C2s.tsLastRec) ∧
    (∃ new, C5run.1.cache.records = C2s.cache.records ++ new ∧
      (∀ r ∈ new, TS_2010_07 ≤ r ∧ C2s.cache.since_ts ≤ r ∧
        r ≤ 1400000600 + 300 ∧ C2s.tsLastRec < r) ∧
      List.Chain' (· < ·) C5run.1.cache.records) :=
  ⟨rfl, List.chain'_nil, fun r hr => absurd hr (List.not_mem_nil r),
    C5_history_filter C2s 1400000600 C2buf C5pos C5run.1 C5run.2 rfl
      List.chain'_nil (fun r hr => absurd hr (List.not_mem_nil r))⟩

/-- C3 (amended): on the first history frame of a catch-up started with
`num_rec = 0` and `since_ts = now − 3600 s`, with the 5-minute history
interval code and `limit_rec_read_to = 3001`, while the station holds
`nrec = 200` records, the engine computes `nreq = 3600/300 + 5 = 17`
(not 725: the archive interval is 300 seconds), needs no clipping since
`17 ≤ min(3001, 200)`, and plants `start_index = next_index =
(latest − 17) mod 51200`; the handler's epilogue then sets the outstanding
count to `nrec = 200`. -/
theorem C3_first_frame_sizing (s : EngineState) (now : Int)
    (buf : List Nat) (pos : Nat → HistPos)
    (hcmd : s.command = some ACTION_GET_HISTORY)
    (hstart : s.cache.start_index = none)
    (hnum : s.cache.num_rec = 0)
    (hsince : s.cache.since_ts = now - 3600)
    (hpos : 0 < now - 3600)
    (hhi : s.cfg.HistoryInterval = HI_05MIN)
    (hlimit : s.limitRecReadTo = 3001)
    (hnrec : get_index (frameLatestIndex buf - frameThisIndex buf) = 200) :
    ∃ s2 out, handleHistoryData s now buf pos = some (s2, out) ∧
      s2.cache.start_index = some (get_index (frameLatestIndex buf - 17)) ∧
      s2.cache.next_index = some (get_index (frameLatestIndex buf - 17)) ∧
      s2.cache.num_outstanding_records = some 200 := by
  unfold handleHistoryData
  dsimp only
  rw [if_pos hcmd]
  unfold histCatchupStep
  dsimp only
  rw [hstart]
  dsimp only
  rw [if_neg (show ¬(0 < s.cache.num_rec) by omega),
    if_pos (show 0 < s.cache.since_ts by omega),
    dcfAlarmCfg_HistoryInterval, hhi]
  rw [hsince, (by ring : now - (now - 3600) = (3600 : Int))]
  dsimp only [HI_05MIN, history_intervals]
  rw [(by norm_num : (60 : Int) * ((5 : Nat) : Int) = 300)]
  rw [(by decide : (3600 : Int).fdiv 300 + 5 = 17)]
  rw [hnrec, hlimit]
  rw [if_neg (show ¬((200 : Int) < 17) by norm_num),
    if_neg (show ¬((3001 : Int) < 17) by norm_num),
    if_neg (show ¬(max_records ≤ (17 : Int)) by decide)]
  try dsimp only
  exact ⟨_, _, rfl, rfl, rfl, rfl⟩

/-- A catch-up just started (`start_index` unset) with
`since_ts = now − 3600` at `now = 1600000000` and the 5-minute interval
code decoded from the console. -/
def C3s : EngineState := { engineState0 with
  command := some ACTION_GET_HISTORY
  cfg := { ConfigValues.init with HistoryInterval := HI_05MIN }
  cache := { HistoryCacheSt.clear with since_ts := 1599996400 } }

/-- A history frame reporting `latestIndex = 1000`, `thisIndex = 800`
(so the station holds `nrec = 200` records). -/
def C3buf : List Nat :=
  [0x12, 0x34, 0, 0x40, 0, 0, 0, 0x07, 0x7D, 0x00, 0x07, 0x64, 0x00]

/-- The state after `C3s` handles `C3buf`. -/
def C3run : EngineState × List Nat :=
  (handleHistoryData C3s 1600000000 C3buf pos0).getD (engineState0, [])

/-- C3 counterexample: in the claim's scenario the engine computes
`nreq = 3600/300 + 5 = 17` (the claim's 725 = 3600/5 forgets that the
5-minute interval is 300 seconds), so nothing is clipped and the starting
index is `(latest − 17) mod 51200 = 983`, not
`(latest − 200) mod 51200 = 800`. -/
theorem C3_counterexample :
    C3s.cache.since_ts = 1600000000 - 3600 ∧
    C3s.cfg.HistoryInterval = HI_05MIN ∧
    C3s.limitRecReadTo = 3001 ∧
    frameLatestIndex C3buf = 1000 ∧
    frameThisIndex C3buf = 800 ∧
    get_index (1000 - 800) = 200 ∧
    C3run.1.cache.start_index = some 983 ∧
    C3run.1.cache.num_outstanding_records = some 200 ∧
    (983 : Int) ≠ get_index (1000 - 200) := by decide

/-- C3 witness: the sizing theorem applied to `C3s` and `C3buf`. -/
theorem C3_first_frame_sizing_witness :
    C3s.command = some ACTION_GET_HISTORY ∧
    C3s.cache.start_index = none ∧
    C3s.cache.num_rec = 0 ∧
    C3s.cache.since_ts = 1600000000 - 3600 ∧
    (0 : Int) < 1600000000 - 3600 ∧
    C3s.cfg.HistoryInterval = HI_05MIN ∧
    C3s.limitRecReadTo = 3001 ∧
    get_index (frameLatestIndex C3buf - frameThisIndex C3buf) = 200 ∧
    (∃ s2 out,
      handleHistoryData C3s 1600000000 C3buf pos0 = some (s2, out) ∧
      s2.cache.start_index =
        some (get_index (frameLatestIndex C3buf - 17)) ∧
      s2.cache.next_index =
        some (get_index (frameLatestIndex C3buf - 17)) ∧
      s2.cache.num_outstanding_records = some 200) :=
  ⟨rfl, rfl, rfl, by decide, by decide, rfl, rfl, by decide,
    C3_first_frame_sizing C3s 1600000000 C3buf pos0 rfl rfl rfl
      (by decide) (by decide) rfl rfl (by decide)⟩

end KL
